import Mathlib

/-!
# Velvyna storefront: cart, checkout, orders, catalog and uploads

A shallow embedding of the backend controllers
`backend/controllers/cartController.js`,
`backend/controllers/orderController.js`,
`backend/controllers/productController.js` (`updateProduct`) and
`backend/controllers/uploadController.js` (`fileFilter`), together with the
Mongoose models they use (`backend/models/Cart.js`, `Product.js`, `Order.js`)
and the price and status computations of the client pages
`frontend/public/js/pages/payment.js`, `cart.js` and `adminOrders.js`.

Modelling conventions.

* A JavaScript `Number` is an exact rational (`ℚ`).
* A Mongo `ObjectId` is a natural number; `toString()` of an `ObjectId` is its 24-digit
  lower-case hexadecimal text.  The product identifier of an add-item request is a text
  (`IdText`): `Product.findById` and the cast of a pushed sub-document read it as the
  `ObjectId` it denotes, whatever the case of its digits, while
  `item.product.toString() === productId` compares texts, so it holds only when the request
  text is the lower-case text of the line's product.  The item identifier of a
  set-item-quantity or remove-item request is only ever compared as a text with
  `item._id.toString()`, so it is represented by the `ObjectId` whose lower-case text it is.
* An optional string field (`color`, `size`, address parts) is `Option String`;
  `none` stands for `undefined`.
* The document store is a record of lists; `findOne` / `findById` return the
  first matching document and `save` overwrites that document, or inserts the
  document when it is new.
* A handler is a function from the store and the request to the store after
  the request together with the outcome sent to the client.  A handler that
  throws after `res.status(s)` yields `Outcome.error s msg`; an exception
  thrown without a status being set yields `Outcome.exception`.
* Identifiers of freshly created documents and sub-documents, and the value of
  `Date.now()`, are supplied by the caller.
* A stored document holds the paths its schema declares; a property assigned to a
  document object under a name the schema does not declare is not written by `save()`.
-/

namespace Velvyna

abbrev ObjectId := Nat

/-- A document of `productSchema`: the paths read or written by the cart, order and product
controllers.  The paths that only the product controller touches default to the values that
`createProduct` falls back to.  The schema declares no `colorImages` path. -/
structure Product where
  _id : ObjectId
  name : String
  image : String
  price : ℚ
  countInStock : ℚ
  description : String := "Sample description"
  brand : String := "Sample Brand"
  category : String := "Electronics"
  sizes : List String := []
  colors : List String := []
  additionalImages : List String := []
  deriving DecidableEq, Repr

/-- A sub-document of `cartItemSchema`. -/
structure CartItem where
  _id : ObjectId
  product : ObjectId
  quantity : ℚ
  color : Option String
  size : Option String
  deriving DecidableEq, Repr

/-- A document of `cartSchema`: one per user. -/
structure Cart where
  user : ObjectId
  items : List CartItem
  deriving DecidableEq, Repr

/-- A sub-document of `orderItemSchema`. -/
structure OrderItem where
  name : String
  quantity : ℚ
  image : String
  price : ℚ
  product : ObjectId
  color : Option String
  size : Option String
  deriving DecidableEq, Repr

/-- The `shippingAddress` object, as sent in a request and as stored in an order. -/
structure ShippingAddress where
  address : Option String
  addressLaneOrHouseNumber : Option String
  city : Option String
  postalCode : Option String
  country : Option String
  recipientName : Option String
  phoneNumber : Option String
  deriving DecidableEq, Repr

/-- The payment-result payload that `updateOrderToPaid` reads from the request body. -/
structure PaymentResult where
  id : Option String
  status : Option String
  update_time : Option String
  email_address : Option String
  deriving DecidableEq, Repr

/-- A document of `orderSchema`: the paths the schema declares.  The schema declares no
`paymentResult` path. -/
structure Order where
  _id : ObjectId
  user : ObjectId
  orderItems : List OrderItem
  shippingAddress : ShippingAddress
  paymentMethod : String
  messageForDelivery : String
  giftWrapped : Bool
  paymentConfirmedByAdmin : Bool
  orderPlacedWithQikink : Bool
  fulfilmentDone : Bool
  isPaid : Bool
  paidAt : Option Nat
  isDelivered : Bool
  deliveredAt : Option Nat
  itemsPrice : ℚ
  taxPrice : ℚ
  shippingPrice : ℚ
  totalPrice : ℚ
  deriving DecidableEq, Repr

/-- The persisted store. -/
structure Db where
  products : List Product
  carts : List Cart
  orders : List Order
  deriving DecidableEq, Repr

/-- The messages of the errors thrown by the controllers. -/
inductive ErrorMessage where
  | productNotFound
  | notEnoughStock (name : String) (available : ℚ)
  | cartNotFound
  | cartItemProductNotFound
  | cartItemNotFound
  | addressMissing
  | paymentMethodMissing
  | noItemsInCart
  | orderProductNotFound (product : ObjectId)
  | orderNotFound
  | notAuthorizedToViewOrder
  deriving DecidableEq, Repr

/-- What a handler sends back. -/
inductive Outcome (α : Type) where
  | ok (status : Nat) (body : α)
  | error (status : Nat) (message : ErrorMessage)
  | exception
  deriving DecidableEq, Repr

/-- Overwrite the first element satisfying `p` by `x`. -/
def replaceFirst {α : Type} (p : α → Bool) (x : α) : List α → List α
  | [] => []
  | y :: ys => if p y then x :: ys else y :: replaceFirst p x ys

/-- `Product.findById(id)`. -/
def Db.findProduct (db : Db) (id : ObjectId) : Option Product :=
  db.products.find? (fun p => p._id == id)

/-- `product.save()` for a document loaded from the store. -/
def Db.saveProduct (db : Db) (p : Product) : Db :=
  { db with products := replaceFirst (fun y => y._id == p._id) p db.products }

/-- `Cart.findOne({ user })`. -/
def Db.findCart (db : Db) (user : ObjectId) : Option Cart :=
  db.carts.find? (fun c => c.user == user)

/-- `cart.save()`: overwrite the user's cart document, or insert it when the user has none. -/
def Db.saveCart (db : Db) (c : Cart) : Db :=
  if db.carts.any (fun y => y.user == c.user) then
    { db with carts := replaceFirst (fun y => y.user == c.user) c db.carts }
  else
    { db with carts := db.carts ++ [c] }

/-! ## cartController.js -/

/-- The text of an identifier as a request carries it.  `id` is the `ObjectId` that the text
denotes, that is, the value Mongoose's cast of the text to `ObjectId` yields (the cast reads
the hexadecimal digits in either case).  `canonical` tells whether the text is the lower-case
text that `toString()` yields for that `ObjectId`.  For instance the text
`0000000000000000000000ab` is `{ id := 171, canonical := true }` and the text
`0000000000000000000000AB` is `{ id := 171, canonical := false }`. -/
structure IdText where
  id : ObjectId
  canonical : Bool
  deriving DecidableEq, Repr

/-- The comparison `id.toString() === text` of the lower-case text of a stored `ObjectId` with
the text of a request: the two strings are equal exactly when the request text is in lower
case and denotes that `ObjectId`. -/
def toStringEq (id : ObjectId) (text : IdText) : Bool :=
  text.canonical && id == text.id

/-- The body of `POST /api/cart`. -/
structure AddItemBody where
  productId : IdText
  quantity : ℚ
  color : Option String
  size : Option String
  deriving DecidableEq, Repr

/-- The predicate of the `findIndex` call in `addItemToCart`. -/
def sameLine (body : AddItemBody) (item : CartItem) : Bool :=
  toStringEq item.product body.productId && item.color == body.color && item.size == body.size

/-- The sub-document pushed by `addItemToCart`; the schema casts the request text of
`product` to the `ObjectId` it denotes. -/
def newLine (body : AddItemBody) (newId : ObjectId) : CartItem :=
  { _id := newId, product := body.productId.id, quantity := body.quantity,
    color := body.color, size := body.size }

/-- The statement `cart.items[i].quantity += quantity` / `= quantity`. -/
def modifyQuantity (f : ℚ → ℚ) (items : List CartItem) (i : Nat) : List CartItem :=
  items.modify (fun it => { it with quantity := f it.quantity }) i

/-- The branch of `addItemToCart` that computes the new item list of an existing cart. -/
def addToItems (items : List CartItem) (body : AddItemBody) (newId : ObjectId) : List CartItem :=
  match items.findIdx? (sameLine body) with
  | some i => modifyQuantity (fun q => q + body.quantity) items i
  | none => items ++ [newLine body newId]

/-- The handler `addItemToCart`. -/
def addItemToCart (db : Db) (user : ObjectId) (body : AddItemBody) (newId : ObjectId) :
    Db × Outcome Cart :=
  match db.findProduct body.productId.id with
  | none => (db, .error 404 .productNotFound)
  | some product =>
    if product.countInStock < body.quantity then
      (db, .error 400 (.notEnoughStock product.name product.countInStock))
    else
      let cart : Cart :=
        match db.findCart user with
        | some cart => { cart with items := addToItems cart.items body newId }
        | none => { user := user, items := [newLine body newId] }
      (db.saveCart cart, .ok 200 cart)

/-- The handler `updateCartItemQuantity`.  The index returned by `findIndex` is always in
range, so the `none` branch of the lookup `cart.items[itemIndex]` is never taken (see
`updateCartItemQuantity_ne_exception`). -/
def updateCartItemQuantity (db : Db) (user : ObjectId) (itemId : ObjectId) (quantity : ℚ) :
    Db × Outcome Cart :=
  match db.findCart user with
  | none => (db, .error 404 .cartNotFound)
  | some cart =>
    match cart.items.findIdx? (fun item => item._id == itemId) with
    | some itemIndex =>
      match cart.items[itemIndex]? with
      | none => (db, .exception)
      | some cartItem =>
        match db.findProduct cartItem.product with
        | none => (db, .error 404 .cartItemProductNotFound)
        | some product =>
          if product.countInStock < quantity then
            (db, .error 400 (.notEnoughStock product.name product.countInStock))
          else
            let cart' : Cart :=
              { cart with items := modifyQuantity (fun _ => quantity) cart.items itemIndex }
            (db.saveCart cart', .ok 200 cart')
    | none => (db, .error 404 .cartItemNotFound)

/-- The handler `removeCartItem`. -/
def removeCartItem (db : Db) (user : ObjectId) (itemId : ObjectId) : Db × Outcome Cart :=
  match db.findCart user with
  | none => (db, .error 404 .cartNotFound)
  | some cart =>
    let items' := cart.items.filter (fun item => item._id != itemId)
    if items'.length = cart.items.length then
      (db, .error 404 .cartItemNotFound)
    else
      let cart' : Cart := { cart with items := items' }
      (db.saveCart cart', .ok 200 cart')

/-- The handler `clearCart`. -/
def clearCart (db : Db) (user : ObjectId) : Db × Outcome Unit :=
  match db.findCart user with
  | some cart => (db.saveCart { cart with items := [] }, .ok 200 ())
  | none => (db, .error 404 .cartNotFound)

/-! ## orderController.js -/

/-- An element of the client-sent `orderItems` array. -/
structure ClientOrderItem where
  product : ObjectId
  quantity : ℚ
  color : Option String
  size : Option String
  deriving DecidableEq, Repr

/-- The body of `POST /api/orders`. -/
structure PlaceOrderBody where
  orderItems : List ClientOrderItem
  shippingAddress : Option ShippingAddress
  paymentMethod : Option String
  itemsPrice : Option ℚ
  taxPrice : Option ℚ
  shippingPrice : Option ℚ
  totalPrice : Option ℚ
  messageForDelivery : Option String
  giftWrapped : Option Bool
  deriving DecidableEq, Repr

/-- JavaScript truthiness of an optional string: present and not empty. -/
def truthy (s : Option String) : Bool :=
  match s with
  | some v => v != ""
  | none => false

/-- The `required: true` validators of `orderItemSchema`. -/
def OrderItem.valid (it : OrderItem) : Bool :=
  it.name != "" && it.image != ""

/-- The `required: true` validators of `orderSchema`, run by `order.save()`. -/
def Order.valid (o : Order) : Bool :=
  o.orderItems.all OrderItem.valid &&
  truthy o.shippingAddress.address && truthy o.shippingAddress.city &&
  truthy o.shippingAddress.postalCode && truthy o.shippingAddress.country &&
  truthy o.shippingAddress.recipientName && truthy o.shippingAddress.phoneNumber &&
  o.paymentMethod != ""

/-- The query modifier `.populate("items.product")`: every cart line paired with the product
document it references, `none` when that product no longer exists. -/
def populate (db : Db) (items : List CartItem) : List (CartItem × Option Product) :=
  items.map (fun it => (it, db.findProduct it.product))

/-- The order line pushed onto `finalOrderItems`. -/
def snapshot (product : Product) (cartItem : CartItem) : OrderItem :=
  { name := product.name, quantity := cartItem.quantity, image := product.image,
    price := product.price, product := product._id, color := cartItem.color,
    size := cartItem.size }

/-- The `for (const cartItem of cart.items)` loop of `addOrderItems`, started with the store, the
order lines built so far and the subtotal accumulated so far.  It yields the store after the loop
and either the outcome of the `throw` that left the loop, or `finalOrderItems` and
`calculatedItemsPrice`. -/
def orderLoop : List (CartItem × Option Product) → Db → List OrderItem → ℚ →
    Db × Except (Outcome Order) (List OrderItem × ℚ)
  | [], db, finalOrderItems, calculatedItemsPrice =>
    (db, .ok (finalOrderItems, calculatedItemsPrice))
  | (cartItem, populated) :: rest, db, finalOrderItems, calculatedItemsPrice =>
    match populated with
    | none => (db, .error .exception)
    | some ref =>
      match db.findProduct ref._id with
      | none => (db, .error (.error 404 (.orderProductNotFound ref._id)))
      | some product =>
        if product.countInStock < cartItem.quantity then
          (db, .error (.error 400 (.notEnoughStock product.name product.countInStock)))
        else
          orderLoop rest
            (db.saveProduct
              { product with countInStock := product.countInStock - cartItem.quantity })
            (finalOrderItems ++ [snapshot product cartItem])
            (calculatedItemsPrice + product.price * cartItem.quantity)

/-- The expression `calculatedItemsPrice * 0.15`. -/
def calculatedTaxPrice (calculatedItemsPrice : ℚ) : ℚ :=
  calculatedItemsPrice * (15 / 100)

/-- The expression `calculatedItemsPrice > 1000 ? 0 : 100`. -/
def calculatedShippingPrice (calculatedItemsPrice : ℚ) : ℚ :=
  if calculatedItemsPrice > 1000 then 0 else 100

/-- The expression `calculatedItemsPrice + calculatedTaxPrice + calculatedShippingPrice`. -/
def calculatedTotalPrice (calculatedItemsPrice : ℚ) : ℚ :=
  calculatedItemsPrice + calculatedTaxPrice calculatedItemsPrice +
    calculatedShippingPrice calculatedItemsPrice

/-- The document built by `new Order({...})` in `addOrderItems`. -/
def newOrder (newId user : ObjectId) (finalOrderItems : List OrderItem)
    (shippingAddress : ShippingAddress) (paymentMethod : String) (body : PlaceOrderBody)
    (calculatedItemsPrice : ℚ) : Order :=
  { _id := newId
    user := user
    orderItems := finalOrderItems
    shippingAddress := shippingAddress
    paymentMethod := paymentMethod
    messageForDelivery := body.messageForDelivery.getD ""
    giftWrapped := body.giftWrapped.getD false
    paymentConfirmedByAdmin := false
    orderPlacedWithQikink := false
    fulfilmentDone := false
    isPaid := false
    paidAt := none
    isDelivered := false
    deliveredAt := none
    itemsPrice := calculatedItemsPrice
    taxPrice := calculatedTaxPrice calculatedItemsPrice
    shippingPrice := calculatedShippingPrice calculatedItemsPrice
    totalPrice := calculatedTotalPrice calculatedItemsPrice }

/-- The handler `addOrderItems`. -/
def addOrderItems (db : Db) (user : ObjectId) (body : PlaceOrderBody) (newId : ObjectId) :
    Db × Outcome Order :=
  match body.shippingAddress with
  | none => (db, .error 400 .addressMissing)
  | some shippingAddress =>
    if !truthy shippingAddress.recipientName || !truthy shippingAddress.phoneNumber then
      (db, .error 400 .addressMissing)
    else
      match body.paymentMethod with
      | none => (db, .error 400 .paymentMethodMissing)
      | some paymentMethod =>
        if paymentMethod == "" then (db, .error 400 .paymentMethodMissing)
        else
          match db.findCart user with
          | none => (db, .error 400 .noItemsInCart)
          | some cart =>
            if cart.items.length = 0 then (db, .error 400 .noItemsInCart)
            else
              match orderLoop (populate db cart.items) db [] 0 with
              | (db1, .error thrown) => (db1, thrown)
              | (db1, .ok (finalOrderItems, calculatedItemsPrice)) =>
                let order := newOrder newId user finalOrderItems shippingAddress paymentMethod
                  body calculatedItemsPrice
                if order.valid then
                  (Db.saveCart { db1 with orders := db1.orders ++ [order] }
                    { cart with items := [] }, .ok 201 order)
                else (db1, .exception)

/-- The authenticated requester `req.user`. -/
structure User where
  _id : ObjectId
  isAdmin : Bool
  deriving DecidableEq, Repr

/-- An order document object in memory: the paths declared by `orderSchema`, and the property
`paymentResult` that `updateOrderToPaid` assigns on the object.  Since `orderSchema` declares
no such path and the schema does not switch strict mode off, `save()` writes the declared
paths only and the serialised document sent in the response holds the declared paths only. -/
structure OrderDocument where
  paths : Order
  paymentResult : Option PaymentResult
  deriving DecidableEq, Repr

/-- `Order.findById(id)`. -/
def Db.findOrder (db : Db) (id : ObjectId) : Option Order :=
  db.orders.find? (fun o => o._id == id)

/-- `order.save()` for a document loaded from the store. -/
def Db.saveOrder (db : Db) (o : Order) : Db :=
  { db with orders := replaceFirst (fun y => y._id == o._id) o db.orders }

/-- The handler `updateOrderToPaid`; `now` is the value of `Date.now()`. -/
def updateOrderToPaid (db : Db) (_requester : User) (id : ObjectId) (body : PaymentResult)
    (now : Nat) : Db × Outcome Order :=
  match db.findOrder id with
  | some order =>
    let document : OrderDocument :=
      { paths := { order with isPaid := true, paidAt := some now },
        paymentResult := some { id := body.id, status := body.status,
                                update_time := body.update_time,
                                email_address := body.email_address } }
    let updatedOrder := document.paths
    (db.saveOrder updatedOrder, .ok 200 updatedOrder)
  | none => (db, .error 404 .orderNotFound)

/-- The handler `updateOrderToDelivered`; `now` is the value of `Date.now()`. -/
def updateOrderToDelivered (db : Db) (_requester : User) (id : ObjectId) (now : Nat) :
    Db × Outcome Order :=
  match db.findOrder id with
  | some order =>
    let updatedOrder : Order := { order with isDelivered := true, deliveredAt := some now }
    (db.saveOrder updatedOrder, .ok 200 updatedOrder)
  | none => (db, .error 404 .orderNotFound)

/-- The body of `PUT /api/orders/:id/admin-status`; `none` stands for a field that is
`undefined` in the request. -/
structure AdminStatusBody where
  paymentConfirmedByAdmin : Option Bool
  orderPlacedWithQikink : Option Bool
  fulfilmentDone : Option Bool
  deriving DecidableEq, Repr

/-- The handler `updateOrderAdminStatus`. -/
def updateOrderAdminStatus (db : Db) (_requester : User) (id : ObjectId)
    (body : AdminStatusBody) : Db × Outcome Order :=
  match db.findOrder id with
  | some order =>
    let order1 : Order :=
      match body.paymentConfirmedByAdmin with
      | some v => { order with paymentConfirmedByAdmin := v }
      | none => order
    let order2 : Order :=
      match body.orderPlacedWithQikink with
      | some v => { order1 with orderPlacedWithQikink := v }
      | none => order1
    let order3 : Order :=
      match body.fulfilmentDone with
      | some v => { order2 with fulfilmentDone := v }
      | none => order2
    (db.saveOrder order3, .ok 200 order3)
  | none => (db, .error 404 .orderNotFound)

/-- The handler `getOrderById`.  The query populates `order.user`; the application has no
operation that deletes a user, so the populated document is present and its `_id` is the
stored reference.  The answer carries the order document. -/
def getOrderById (db : Db) (requester : User) (id : ObjectId) : Db × Outcome Order :=
  match db.findOrder id with
  | some order =>
    if order.user != requester._id && !requester.isAdmin then
      (db, .error 401 .notAuthorizedToViewOrder)
    else
      (db, .ok 200 order)
  | none => (db, .error 404 .orderNotFound)

/-- The answer of `GET /api/cart`: the cart with every line's product populated. -/
structure CartResponse where
  user : ObjectId
  items : List (CartItem × Option Product)
  deriving DecidableEq, Repr

/-- The handler `getUserCart`. -/
def getUserCart (db : Db) (user : ObjectId) : Db × Outcome CartResponse :=
  match db.findCart user with
  | some cart => (db, .ok 200 { user := cart.user, items := populate db cart.items })
  | none => (db, .ok 200 { user := user, items := [] })

/-! ## productController.js -/

/-- The body of `PUT /api/products/:id`; `none` stands for a field that is `undefined`. -/
structure UpdateProductBody where
  name : Option String
  price : Option ℚ
  description : Option String
  image : Option String
  brand : Option String
  category : Option String
  countInStock : Option ℚ
  sizes : Option (List String)
  colors : Option (List String)
  colorImages : Option (List (String × String))
  additionalImages : Option (List String)
  deriving DecidableEq, Repr

/-- The expression `x || old` for an optional string `x`. -/
def orOld (x : Option String) (old : String) : String :=
  match x with
  | some v => if v != "" then v else old
  | none => old

/-- The expression `x !== undefined ? x : old`. -/
def definedOr {α : Type} (x : Option α) (old : α) : α :=
  match x with
  | some v => v
  | none => old

/-- A product document object in memory: the paths declared by `productSchema`, and the
property `colorImages` that `updateProduct` assigns on the object; `save()` writes the declared
paths only. -/
structure ProductDocument where
  paths : Product
  colorImages : Option (List (String × String))
  deriving DecidableEq, Repr

/-- The handler `updateProduct`. -/
def updateProduct (db : Db) (id : ObjectId) (body : UpdateProductBody) : Db × Outcome Product :=
  match db.findProduct id with
  | some product =>
    let document : ProductDocument :=
      { paths :=
          { product with
            name := orOld body.name product.name
            price := definedOr body.price product.price
            description := orOld body.description product.description
            image := orOld body.image product.image
            brand := orOld body.brand product.brand
            category := orOld body.category product.category
            countInStock := definedOr body.countInStock product.countInStock
            sizes := definedOr body.sizes product.sizes
            colors := definedOr body.colors product.colors
            additionalImages := definedOr body.additionalImages product.additionalImages }
        colorImages := body.colorImages }
    let updatedProduct := document.paths
    (db.saveProduct updatedProduct, .ok 200 updatedProduct)
  | none => (db, .error 404 .productNotFound)

/-! ## uploadController.js -/

/-- The fields of an uploaded file that `fileFilter` reads. -/
structure UploadedFile where
  originalname : String
  mimetype : String
  deriving DecidableEq, Repr

/-- The list `s` has `pat` as a contiguous sub-list. -/
def hasInfix (pat s : List Char) : Bool :=
  s.tails.any (fun t => pat.isPrefixOf t)

/-- The call `filetypes.test(s)` for the regular expression `/jpeg|jpg|png|gif/`: the
expression has no anchors, so it matches when one of the four words occurs anywhere in `s`. -/
def filetypesTest (s : String) : Bool :=
  hasInfix "jpeg".toList s.toList || hasInfix "jpg".toList s.toList ||
    hasInfix "png".toList s.toList || hasInfix "gif".toList s.toList

/-- The state of the backward scan of Node's `path.extname`. -/
structure ExtnameState where
  startDot : Option Nat
  startPart : Nat
  endIndex : Option Nat
  matchedSlash : Bool
  preDotState : Int
  stopped : Bool
  deriving DecidableEq, Repr

/-- One step of the backward scan of Node's `path.extname` at index `i` holding `code`. -/
def extnameStep (st : ExtnameState) (ic : Nat × Char) : ExtnameState :=
  if st.stopped then st
  else if ic.2 = '/' then
    if !st.matchedSlash then { st with startPart := ic.1 + 1, stopped := true } else st
  else
    let st1 : ExtnameState :=
      if st.endIndex = none then { st with matchedSlash := false, endIndex := some (ic.1 + 1) }
      else st
    if ic.2 = '.' then
      if st1.startDot = none then { st1 with startDot := some ic.1 }
      else if st1.preDotState ≠ 1 then { st1 with preDotState := 1 }
      else st1
    else if st1.startDot ≠ none then { st1 with preDotState := -1 }
    else st1

/-- Node's `path.extname` (POSIX): the part of the last path segment from its last dot on, and
the empty string when that segment has no dot, starts with its only dot, or is `..`. -/
def extname (path : String) : String :=
  let cs := path.toList
  let st := (cs.enum.reverse).foldl extnameStep
    { startDot := none, startPart := 0, endIndex := none, matchedSlash := true,
      preDotState := 0, stopped := false }
  match st.startDot, st.endIndex with
  | some startDot, some endIndex =>
    if st.preDotState = 0 ||
        (st.preDotState = 1 && startDot = endIndex - 1 && startDot = st.startPart + 1) then ""
    else String.mk ((cs.take endIndex).drop startDot)
  | _, _ => ""

/-- The method `toLowerCase`, on the letters A to Z. -/
def toLowerCase (s : String) : String :=
  String.mk (s.toList.map Char.toLower)

/-- The multer file filter `fileFilter`: `.ok true` stands for `cb(null, true)` and `.error m`
for `cb(new Error(m), false)`. -/
def fileFilter (file : UploadedFile) : Except String Bool :=
  let mimetype := filetypesTest file.mimetype
  let extnameOk := filetypesTest (toLowerCase (extname file.originalname))
  if mimetype && extnameOk then .ok true
  else .error "Only images (JPEG, JPG, PNG, GIF) are allowed!"

/-! ## The client pages -/

/-- The four prices that `handlePaymentDone` (payment.js) computes from the answer of
`GET /api/cart`; `none` when the page returns early because the cart is empty. -/
def handlePaymentDonePrices (cartResponse : CartResponse) : Option (ℚ × ℚ × ℚ × ℚ) :=
  if cartResponse.items.length = 0 then none
  else
    let itemsPrice := cartResponse.items.foldl
      (fun acc item =>
        match item.2 with
        | some product => if product.price != 0 then acc + product.price * item.1.quantity else acc
        | none => acc) 0
    let taxPrice := itemsPrice * (15 / 100)
    let shippingPrice : ℚ := if itemsPrice > 1000 then 0 else 100
    let totalPrice := itemsPrice + taxPrice + shippingPrice
    some (itemsPrice, taxPrice, shippingPrice, totalPrice)

/-- The items total, estimated tax, estimated shipping and estimated total that
`renderCartItems` (cart.js) computes from the answer of `GET /api/cart`; `none` when the page
shows the empty cart. -/
def renderCartItemsEstimate (cartData : CartResponse) : Option (ℚ × ℚ × ℚ × ℚ) :=
  if cartData.items.length = 0 then none
  else
    let totalItemsPrice := cartData.items.foldl
      (fun acc item =>
        let productPrice : ℚ :=
          match item.2 with
          | some product => product.price
          | none => 0
        acc + productPrice * item.1.quantity) 0
    let estimatedTax := totalItemsPrice * (15 / 100)
    let estimatedShipping : ℚ := if totalItemsPrice > 1000 then 0 else 100
    let estimatedTotalPrice := totalItemsPrice + estimatedTax + estimatedShipping
    some (totalItemsPrice, estimatedTax, estimatedShipping, estimatedTotalPrice)

/-- The five checkboxes of the order modal of the admin page. -/
structure AdminCheckboxes where
  paymentConfirmedByAdmin : Bool
  orderPlacedWithQikink : Bool
  fulfilmentDone : Bool
  isPaid : Bool
  isDelivered : Bool
  deriving DecidableEq, Repr

/-- Whether a request of the client came back with an OK status; `apiFetch` throws
otherwise. -/
def Outcome.isOk {α : Type} : Outcome α → Bool
  | .ok _ _ => true
  | _ => false

/-- The function `handleSaveAdminOrderStatus` (adminOrders.js) of a logged-in administrator:
`allOrders` is the list of orders the page holds, `nowPay` and `nowDeliver` are the server
clock values of the two follow-up requests.  The result is the store afterwards and whether
the function completed without a failed request. -/
def handleSaveAdminOrderStatus (db : Db) (admin : User) (allOrders : List Order)
    (orderId : ObjectId) (boxes : AdminCheckboxes) (nowPay nowDeliver : Nat) : Db × Bool :=
  let r1 := updateOrderAdminStatus db admin orderId
    { paymentConfirmedByAdmin := some boxes.paymentConfirmedByAdmin,
      orderPlacedWithQikink := some boxes.orderPlacedWithQikink,
      fulfilmentDone := some boxes.fulfilmentDone }
  if !r1.2.isOk then (r1.1, false)
  else
    match allOrders.find? (fun o => o._id == orderId) with
    | some currentOrder =>
      let r2 : Db × Bool :=
        if boxes.isPaid != currentOrder.isPaid then
          let r := updateOrderToPaid r1.1 admin orderId
            { id := none, status := none, update_time := none, email_address := none } nowPay
          (r.1, r.2.isOk)
        else (r1.1, true)
      if !r2.2 then (r2.1, false)
      else if boxes.isDelivered != currentOrder.isDelivered then
        let r := updateOrderToDelivered r2.1 admin orderId nowDeliver
        (r.1, r.2.isOk)
      else (r2.1, true)
    | none => (r1.1, true)

/-- The fields of an order that are fixed when the order is placed. -/
def Order.placedPart (o : Order) :
    ObjectId × List OrderItem × ShippingAddress × String × Bool × String × ℚ × ℚ × ℚ × ℚ :=
  (o.user, o.orderItems, o.shippingAddress, o.paymentMethod, o.giftWrapped,
    o.messageForDelivery, o.itemsPrice, o.taxPrice, o.shippingPrice, o.totalPrice)

/-- The item list of the user's cart, empty when the user has no cart document. -/
def Db.cartItems (db : Db) (user : ObjectId) : List CartItem :=
  match db.findCart user with
  | some cart => cart.items
  | none => []

/-! ## Sequences of cart requests -/

/-- A request of one user to one of the four cart-mutating routes. -/
inductive CartOp where
  | addItem (body : AddItemBody) (newId : ObjectId)
  | setQuantity (itemId : ObjectId) (quantity : ℚ)
  | removeItem (itemId : ObjectId)
  | clear
  deriving DecidableEq, Repr

/-- The store after the handler of the request has run. -/
def CartOp.run (user : ObjectId) (db : Db) : CartOp → Db
  | .addItem body newId => (addItemToCart db user body newId).1
  | .setQuantity itemId quantity => (updateCartItemQuantity db user itemId quantity).1
  | .removeItem itemId => (removeCartItem db user itemId).1
  | .clear => (clearCart db user).1

/-- The store after a sequence of cart requests of one user. -/
def runOps (user : ObjectId) (db : Db) (ops : List CartOp) : Db :=
  ops.foldl (fun d op => op.run user d) db

/-- The quantity carried by an add-item or set-item-quantity request. -/
def CartOp.requestedQuantity : CartOp → Option ℚ
  | .addItem body _ => some body.quantity
  | .setQuantity _ quantity => some quantity
  | .removeItem _ => none
  | .clear => none

/-- The product identifier of an add-item request is in lower-case text; the other requests
carry no product identifier. -/
def CartOp.canonical : CartOp → Bool
  | .addItem body _ => body.productId.canonical
  | .setQuantity _ _ => true
  | .removeItem _ => true
  | .clear => true

/-- The (product, color, size) triple of a cart line. -/
def lineKey (it : CartItem) : ObjectId × Option String × Option String :=
  (it.product, it.color, it.size)

/-- No two lines of the list share their (product, color, size) triple. -/
def NoDuplicateLines (items : List CartItem) : Prop :=
  (items.map lineKey).Nodup

instance (items : List CartItem) : Decidable (NoDuplicateLines items) :=
  inferInstanceAs (Decidable (items.map lineKey).Nodup)

/-! ## Sequences of order-update requests -/

/-- A request to one of the three routes that update an existing order. -/
inductive OrderOp where
  | pay (requester : User) (id : ObjectId) (body : PaymentResult) (now : Nat)
  | deliver (requester : User) (id : ObjectId) (now : Nat)
  | adminStatus (requester : User) (id : ObjectId) (body : AdminStatusBody)
  deriving DecidableEq, Repr

/-- The store after the handler of the request has run. -/
def OrderOp.run (db : Db) : OrderOp → Db
  | .pay requester id body now => (updateOrderToPaid db requester id body now).1
  | .deliver requester id now => (updateOrderToDelivered db requester id now).1
  | .adminStatus requester id body => (updateOrderAdminStatus db requester id body).1

/-- The store after a sequence of order-update requests. -/
def runOrderOps (db : Db) (ops : List OrderOp) : Db :=
  ops.foldl (fun d op => op.run d) db

/-- The flag `isPaid` is set exactly when `paidAt` is present, and `isDelivered` exactly when
`deliveredAt` is present. -/
def Order.paired (o : Order) : Prop :=
  (o.paidAt.isSome = true ↔ o.isPaid = true) ∧
  (o.deliveredAt.isSome = true ↔ o.isDelivered = true)

/-- The request carries exactly one of the three tracking flags. -/
def AdminStatusBody.exactlyOne (body : AdminStatusBody) : Bool :=
  (body.paymentConfirmedByAdmin.isSome && body.orderPlacedWithQikink.isNone &&
    body.fulfilmentDone.isNone) ||
  (body.paymentConfirmedByAdmin.isNone && body.orderPlacedWithQikink.isSome &&
    body.fulfilmentDone.isNone) ||
  (body.paymentConfirmedByAdmin.isNone && body.orderPlacedWithQikink.isNone &&
    body.fulfilmentDone.isSome)

/-! ## Quantities the checkout claims speak about -/

/-- The catalog price of a product at the time of the call, 0 for an identifier without a
product document. -/
def Db.priceOf (db : Db) (id : ObjectId) : ℚ :=
  match db.findProduct id with
  | some p => p.price
  | none => 0

/-- The sum over the cart lines of catalog price times line quantity. -/
def subtotal (db : Db) (items : List CartItem) : ℚ :=
  (items.map (fun it => db.priceOf it.product * it.quantity)).sum

/-- The total quantity of the cart lines that reference the product. -/
def orderedQuantity (items : List CartItem) (id : ObjectId) : ℚ :=
  ((items.filter (fun it => it.product == id)).map (fun it => it.quantity)).sum

/-- The order line that the checkout builds for a cart line from the catalog of the store,
when the line's product exists. -/
def snapshotLine (db : Db) (line : CartItem) : Option OrderItem :=
  (db.findProduct line.product).map (fun p => snapshot p line)

/-! ## Worked examples -/

/-- Product A of the worked checkout example: stock 5, price 100. -/
def exProductA : Product :=
  { _id := 1, name := "Product A", image := "a.png", price := 100, countInStock := 5 }

/-- Product B of the worked checkout example: stock 1, price 50. -/
def exProductB : Product :=
  { _id := 2, name := "Product B", image := "b.png", price := 50, countInStock := 1 }

/-- The cart of the worked checkout example: Product A twice, Product B once. -/
def exCart : Cart :=
  { user := 7,
    items := [{ _id := 10, product := 1, quantity := 2, color := none, size := none },
              { _id := 11, product := 2, quantity := 1, color := none, size := none }] }

/-- The store of the worked checkout example. -/
def exDb : Db :=
  { products := [exProductA, exProductB], carts := [exCart], orders := [] }

/-- A store with the same catalog in which no user has a cart. -/
def exDbNoCart : Db :=
  { products := [exProductA, exProductB], carts := [], orders := [] }

/-- An add-item request for three more units of Product A. -/
def exAddBody : AddItemBody :=
  { productId := { id := 1, canonical := true }, quantity := 3, color := none, size := none }

/-- An add-item request for six units of Product A, one more than its stock. -/
def exAddBodyOverStock : AddItemBody :=
  { productId := { id := 1, canonical := true }, quantity := 6, color := none, size := none }

/-- An add-item request for zero units of Product A. -/
def exAddBodyZero : AddItemBody :=
  { productId := { id := 1, canonical := true }, quantity := 0, color := none, size := none }

/-- A sequence of cart requests that adds the same line twice, a second line, then edits. -/
def exOps : List CartOp :=
  [.addItem exAddBody 20, .addItem exAddBody 21,
   .addItem { productId := { id := 2, canonical := true }, quantity := 1, color := some "red",
              size := none } 22,
   .setQuantity 20 4, .removeItem 22, .addItem exAddBody 23]

/-- A sequence of add-item and set-item-quantity requests with quantities of at least 1. -/
def exAddSetOps : List CartOp :=
  [.addItem exAddBody 20, .addItem exAddBody 21, .setQuantity 20 4]

/-- A shipping address with every required field present. -/
def exAddress : ShippingAddress :=
  { address := some "12 Lake Road", addressLaneOrHouseNumber := none, city := some "Pune",
    postalCode := some "411001", country := some "India", recipientName := some "Asha",
    phoneNumber := some "9800000000" }

/-- A place-order request that sends no client-side items or prices. -/
def exOrderBody : PlaceOrderBody :=
  { orderItems := [], shippingAddress := some exAddress, paymentMethod := some "UPI",
    itemsPrice := none, taxPrice := none, shippingPrice := none, totalPrice := none,
    messageForDelivery := none, giftWrapped := none }

/-- The same request with client-sent items and prices that do not match the catalog. -/
def exForgedBody : PlaceOrderBody :=
  { exOrderBody with
    orderItems := [{ product := 1, quantity := 100, color := none, size := none }],
    itemsPrice := some 1, taxPrice := some 0, shippingPrice := some 0, totalPrice := some 1 }

/-- The order created by the worked checkout example when the new order gets identifier 100. -/
def exOrder : Order :=
  newOrder 100 7
    [snapshot exProductA { _id := 10, product := 1, quantity := 2, color := none, size := none },
     snapshot exProductB { _id := 11, product := 2, quantity := 1, color := none, size := none }]
    exAddress "UPI" exOrderBody 250

/-- The store after the worked checkout example. -/
def exDbAfter : Db :=
  { products := [{ exProductA with countInStock := 3 }, { exProductB with countInStock := 0 }],
    carts := [{ user := 7, items := [] }],
    orders := [exOrder] }

/-- A store for the shipping threshold: user 8 holds two units at price 500 (subtotal exactly
1000), user 9 holds one unit at price 1000.01. -/
def exDbThreshold : Db :=
  { products := [{ _id := 3, name := "Product C", image := "c.png", price := 500,
                   countInStock := 10 },
                 { _id := 4, name := "Product D", image := "d.png", price := 1000.01,
                   countInStock := 10 }],
    carts := [{ user := 8, items := [{ _id := 30, product := 3, quantity := 2, color := none,
                                       size := none }] },
              { user := 9, items := [{ _id := 31, product := 4, quantity := 1, color := none,
                                       size := none }] }],
    orders := [] }

/-- The order placed by user 8 on the threshold store. -/
def exOrderAtThreshold : Order :=
  newOrder 100 8
    [{ name := "Product C", quantity := 2, image := "c.png", price := 500, product := 3,
       color := none, size := none }]
    exAddress "UPI" exOrderBody 1000

/-- The order placed by user 9 on the threshold store. -/
def exOrderAboveThreshold : Order :=
  newOrder 100 9
    [{ name := "Product D", quantity := 1, image := "d.png", price := 1000.01, product := 4,
       color := none, size := none }]
    exAddress "UPI" exOrderBody 1000.01

/-- A store in which the cart asks for two units of Product B while one is in stock. -/
def exDbShort : Db :=
  { products := [exProductA, exProductB],
    carts := [{ user := 7,
                items := [{ _id := 10, product := 1, quantity := 2, color := none, size := none },
                          { _id := 11, product := 2, quantity := 2, color := none,
                            size := none }] }],
    orders := [] }

/-- An administrator. -/
def exAdmin : User := { _id := 1, isAdmin := true }

/-- The customer of the worked checkout example. -/
def exCustomer : User := { _id := 7, isAdmin := false }

/-- A payment-result payload. -/
def exPayment : PaymentResult :=
  { id := some "PAY-1", status := some "COMPLETED", update_time := some "2025-01-01T00:00:00Z",
    email_address := some "asha@example.com" }

/-- A request body without any payment-result field. -/
def exNoPayment : PaymentResult :=
  { id := none, status := none, update_time := none, email_address := none }

/-- An admin-status request that carries `fulfilmentDone = true` only. -/
def exFulfilled : AdminStatusBody :=
  { paymentConfirmedByAdmin := none, orderPlacedWithQikink := none, fulfilmentDone := some true }

/-- A sequence of order-update requests on the order of the worked checkout example. -/
def exOrderOps : List OrderOp :=
  [.adminStatus exAdmin 100 exFulfilled, .pay exCustomer 100 exPayment 5,
   .deliver exAdmin 100 9, .pay exCustomer 100 exNoPayment 12]

/-- An update request that sets the price to 0 and sends nothing else. -/
def exPriceZero : UpdateProductBody :=
  { name := none, price := some 0, description := none, image := none, brand := none,
    category := none, countInStock := none, sizes := none, colors := none, colorImages := none,
    additionalImages := none }

/-- A logged-in user who is neither the customer of the worked example nor an administrator. -/
def exStranger : User := { _id := 8, isAdmin := false }

/-- An uploaded file that is not an image: a text report whose extension and declared type
merely contain the letters `jpg`. -/
def exNotAnImage : UploadedFile :=
  { originalname := "report.jpgx", mimetype := "text/x-jpg" }

/-- The store after the order of the worked example has been marked paid at clock value 5. -/
def exDbPaid : Db :=
  { exDbAfter with orders := [{ exOrder with isPaid := true, paidAt := some 5 }] }

/-- The admin modal with every checkbox unchecked. -/
def exAllUnchecked : AdminCheckboxes :=
  { paymentConfirmedByAdmin := false, orderPlacedWithQikink := false, fulfilmentDone := false,
    isPaid := false, isDelivered := false }

/-- An add-item request for five units of Product A, exactly its stock. -/
def exAddBodyAllStock : AddItemBody :=
  { productId := { id := 1, canonical := true }, quantity := 5, color := none, size := none }

/-- Product C, whose identifier 171 has the text `0000000000000000000000ab`. -/
def exProductC : Product :=
  { _id := 171, name := "Product C", image := "c.png", price := 80, countInStock := 4 }

/-- A store in which the cart of user 7 holds one line: one unit of Product C, without color
or size. -/
def exDbLetters : Db :=
  { products := [exProductC],
    carts := [{ user := 7,
                items := [{ _id := 30, product := 171, quantity := 1, color := none,
                            size := none }] }],
    orders := [] }

/-- A store with Product C in the catalog in which no user has a cart. -/
def exDbLettersNoCart : Db :=
  { products := [exProductC], carts := [], orders := [] }

/-- An add-item request for one unit of Product C, without color or size, that sends the
product identifier as the lower-case text `0000000000000000000000ab`. -/
def exAddBodyLowerCase : AddItemBody :=
  { productId := { id := 171, canonical := true }, quantity := 1, color := none, size := none }

/-- The same add-item request with the product identifier sent as the upper-case text
`0000000000000000000000AB`. -/
def exAddBodyUpperCase : AddItemBody :=
  { productId := { id := 171, canonical := false }, quantity := 1, color := none, size := none }

/-! # Theorems -/

/-! ## Store lemmas -/

theorem find?_replaceFirst_self {α : Type} (p : α → Bool) (x : α) (hx : p x = true) :
    ∀ l : List α, l.any p = true → (replaceFirst p x l).find? p = some x
  | [], h => by simp at h
  | y :: ys, h => by
    by_cases hy : p y = true
    · simp [replaceFirst, hy, hx]
    · have hys : ys.any p = true := by simpa [hy] using h
      simp [replaceFirst, hy, find?_replaceFirst_self p x hx ys hys]

theorem find?_append_new {α : Type} (p : α → Bool) (x : α) (hx : p x = true) (l : List α)
    (h : l.any p = false) : (l ++ [x]).find? p = some x := by
  induction l with
  | nil => simp [hx]
  | cons y ys ih =>
    have hy : p y = false := by
      cases hpy : p y
      · rfl
      · simp [hpy] at h
    have hys : ys.any p = false := by simpa [hy] using h
    simp [List.find?, hy, ih hys]

theorem findCart_saveCart (db : Db) (c : Cart) : (db.saveCart c).findCart c.user = some c := by
  unfold Db.saveCart Db.findCart
  split
  · next h => exact find?_replaceFirst_self _ c (by simp) _ h
  · next h =>
    exact find?_append_new _ c (by simp) _ (by simpa using h)

theorem findCart_user {db : Db} {user : ObjectId} {cart : Cart}
    (h : db.findCart user = some cart) : cart.user = user := by
  have := List.find?_some h
  simpa using this

theorem saveCart_products (db : Db) (c : Cart) : (db.saveCart c).products = db.products := by
  unfold Db.saveCart
  split <;> rfl

theorem saveCart_orders (db : Db) (c : Cart) : (db.saveCart c).orders = db.orders := by
  unfold Db.saveCart
  split <;> rfl

/-! ## Adding an item -/

theorem addToItems_of_match (items : List CartItem) (body : AddItemBody) (newId : ObjectId)
    (h : ∃ it ∈ items, sameLine body it = true) :
    ∃ i old, items[i]? = some old ∧ sameLine body old = true ∧
      (∀ (j : Nat) (x : CartItem), j < i → items[j]? = some x → sameLine body x = false) ∧
      (addToItems items body newId).length = items.length ∧
      (addToItems items body newId)[i]? =
        some { old with quantity := old.quantity + body.quantity } ∧
      ∀ j : Nat, j ≠ i → (addToItems items body newId)[j]? = items[j]? := by
  obtain ⟨it, hit, hsame⟩ := h
  have hidx := List.findIdx?_eq_some_of_exists (p := sameLine body) ⟨it, hit, hsame⟩
  obtain ⟨hlt, hp, hbefore⟩ := List.findIdx?_eq_some_iff_getElem.mp hidx
  refine ⟨items.findIdx (sameLine body), items[items.findIdx (sameLine body)], ?_, hp, ?_, ?_, ?_, ?_⟩
  · simp [hlt]
  · intro j x hj hx
    have hjl : j < items.length := Nat.lt_trans hj hlt
    have hxe : x = items[j] := by
      rw [List.getElem?_eq_getElem hjl] at hx
      exact (Option.some.inj hx).symm
    have := hbefore j hj
    rw [hxe]
    simpa using this
  · simp [addToItems, hidx, modifyQuantity]
  · simp [addToItems, hidx, modifyQuantity, hlt]
  · intro j hj
    simp [addToItems, hidx, modifyQuantity, List.getElem?_modify_ne _ _ (Ne.symm hj)]

theorem addToItems_of_no_match (items : List CartItem) (body : AddItemBody) (newId : ObjectId)
    (h : ∀ it ∈ items, sameLine body it = false) :
    addToItems items body newId = items ++ [newLine body newId] := by
  have hidx : items.findIdx? (sameLine body) = none := List.findIdx?_eq_none_iff.mpr h
  simp [addToItems, hidx]

theorem addItemToCart_ok (db : Db) (user : ObjectId) (body : AddItemBody) (newId : ObjectId)
    (product : Product) (hp : db.findProduct body.productId.id = some product)
    (hs : ¬ product.countInStock < body.quantity) :
    ∃ cart', addItemToCart db user body newId = (db.saveCart cart', .ok 200 cart') ∧
      cart'.user = user ∧
      cart'.items = (match db.findCart user with
        | some cart => addToItems cart.items body newId
        | none => [newLine body newId]) := by
  unfold addItemToCart
  simp only [hp, if_neg hs]
  cases hc : db.findCart user with
  | none => exact ⟨_, rfl, rfl, rfl⟩
  | some cart => exact ⟨_, rfl, (findCart_user hc : cart.user = user), rfl⟩

theorem cartItems_saveCart (db : Db) (c : Cart) : (db.saveCart c).cartItems c.user = c.items := by
  simp [Db.cartItems, findCart_saveCart]

/-! ## Setting a quantity -/

theorem updateCartItemQuantity_ne_exception (db : Db) (user itemId : ObjectId) (quantity : ℚ) :
    (updateCartItemQuantity db user itemId quantity).2 ≠ .exception := by
  unfold updateCartItemQuantity
  cases hc : db.findCart user with
  | none => simp
  | some cart =>
    simp only
    cases hi : cart.items.findIdx? (fun item => item._id == itemId) with
    | none => simp
    | some i =>
      have hlt : i < cart.items.length := (List.findIdx?_eq_some_iff_findIdx_eq.mp hi).1
      simp only [List.getElem?_eq_getElem hlt]
      cases db.findProduct (cart.items[i]).product with
      | none => simp
      | some product =>
        simp only
        split <;> simp

/-! ## The no-duplicate-line invariant -/

theorem sameLine_iff (body : AddItemBody) (it : CartItem) :
    sameLine body it = true ↔
      body.productId.canonical = true ∧
        lineKey it = (body.productId.id, body.color, body.size) := by
  simp [sameLine, toStringEq, lineKey, and_assoc]

theorem sameLine_of_canonical (body : AddItemBody) (it : CartItem)
    (hc : body.productId.canonical = true) :
    sameLine body it = true ↔ lineKey it = (body.productId.id, body.color, body.size) := by
  simp [sameLine_iff, hc]

theorem sameLine_of_not_canonical (body : AddItemBody) (it : CartItem)
    (hc : body.productId.canonical = false) : sameLine body it = false := by
  simp [sameLine, toStringEq, hc]

theorem map_lineKey_modifyQuantity (f : ℚ → ℚ) :
    ∀ (items : List CartItem) (i : Nat),
      (modifyQuantity f items i).map lineKey = items.map lineKey
  | [], i => by cases i <;> simp [modifyQuantity]
  | x :: xs, 0 => by simp [modifyQuantity, lineKey]
  | x :: xs, i + 1 => by
    have ih := map_lineKey_modifyQuantity f xs i
    simp only [modifyQuantity] at ih ⊢
    simp [ih]

theorem noDuplicateLines_addToItems (items : List CartItem) (body : AddItemBody)
    (newId : ObjectId) (hc : body.productId.canonical = true) (h : NoDuplicateLines items) :
    NoDuplicateLines (addToItems items body newId) := by
  unfold addToItems
  cases hidx : items.findIdx? (sameLine body) with
  | some i =>
    simp only [NoDuplicateLines, map_lineKey_modifyQuantity]
    exact h
  | none =>
    have hno := List.findIdx?_eq_none_iff.mp hidx
    simp only [NoDuplicateLines, List.map_append, List.map_cons, List.map_nil]
    refine List.Nodup.append h (List.nodup_singleton _) ?_
    intro k hk hk'
    obtain ⟨it, hit, rfl⟩ := List.mem_map.mp hk
    have hkey : lineKey it = (body.productId.id, body.color, body.size) := by
      simpa [newLine, lineKey] using hk'
    have := hno it hit
    rw [(sameLine_of_canonical body it hc).mpr hkey] at this
    exact Bool.noConfusion this

theorem noDuplicateLines_filter (p : CartItem → Bool) (items : List CartItem)
    (h : NoDuplicateLines items) : NoDuplicateLines (items.filter p) :=
  List.Nodup.sublist (List.Sublist.map lineKey (List.filter_sublist items)) h

theorem noDuplicateLines_run (user : ObjectId) (db : Db) (op : CartOp)
    (hcanon : op.canonical = true) (h : NoDuplicateLines (db.cartItems user)) :
    NoDuplicateLines ((op.run user db).cartItems user) := by
  cases op with
  | addItem body newId =>
    simp only [CartOp.run, addItemToCart]
    split
    · exact h
    · split
      · exact h
      · cases hc : db.findCart user with
        | none =>
          have := cartItems_saveCart db { user := user, items := [newLine body newId] }
          simp only at this ⊢
          rw [this]
          simp [NoDuplicateLines]
        | some cart =>
          have hu := findCart_user hc
          have := cartItems_saveCart db
            { cart with items := addToItems cart.items body newId }
          simp only [hu] at this ⊢
          rw [this]
          apply noDuplicateLines_addToItems _ _ _ hcanon
          simpa [Db.cartItems, hc] using h
  | setQuantity itemId quantity =>
    simp only [CartOp.run, updateCartItemQuantity]
    cases hc : db.findCart user with
    | none => exact h
    | some cart =>
      have hu := findCart_user hc
      simp only
      cases hi : cart.items.findIdx? (fun item => item._id == itemId) with
      | none => exact h
      | some i =>
        simp only
        cases hx : cart.items[i]? with
        | none => exact h
        | some cartItem =>
          simp only
          cases hp : db.findProduct cartItem.product with
          | none => exact h
          | some product =>
            simp only
            split
            · exact h
            · have := cartItems_saveCart db
                { cart with items := modifyQuantity (fun _ => quantity) cart.items i }
              simp only [hu] at this ⊢
              rw [this]
              simp only [NoDuplicateLines, map_lineKey_modifyQuantity]
              simpa [Db.cartItems, hc, NoDuplicateLines] using h
  | removeItem itemId =>
    simp only [CartOp.run, removeCartItem]
    cases hc : db.findCart user with
    | none => exact h
    | some cart =>
      have hu := findCart_user hc
      simp only
      split
      · exact h
      · have := cartItems_saveCart db
          { cart with items := cart.items.filter (fun item => item._id != itemId) }
        simp only [hu] at this ⊢
        rw [this]
        apply noDuplicateLines_filter
        simpa [Db.cartItems, hc] using h
  | clear =>
    simp only [CartOp.run, clearCart]
    cases hc : db.findCart user with
    | none => exact h
    | some cart =>
      have hu := findCart_user hc
      have := cartItems_saveCart db { cart with items := [] }
      simp only [hu] at this ⊢
      rw [this]
      simp [NoDuplicateLines]

theorem runOps_cons (user : ObjectId) (db : Db) (op : CartOp) (ops : List CartOp) :
    runOps user db (op :: ops) = runOps user (op.run user db) ops := rfl

theorem noDuplicateLines_runOps (user : ObjectId) (ops : List CartOp)
    (hcanon : ∀ op ∈ ops, op.canonical = true) :
    ∀ db : Db, NoDuplicateLines (db.cartItems user) →
      NoDuplicateLines ((runOps user db ops).cartItems user) := by
  induction ops with
  | nil => intro db h; exact h
  | cons op ops ih =>
    intro db h
    rw [runOps_cons]
    exact ih (fun o ho => hcanon o (List.mem_cons_of_mem _ ho)) _
      (noDuplicateLines_run user db op (hcanon op (List.mem_cons_self _ _)) h)

/-! ## Line quantities -/

theorem mem_modifyQuantity (f : ℚ → ℚ) :
    ∀ (items : List CartItem) (i : Nat) (it : CartItem), it ∈ modifyQuantity f items i →
      it ∈ items ∨ ∃ old ∈ items, it = { old with quantity := f old.quantity }
  | [], i, it, h => by cases i <;> simp [modifyQuantity] at h
  | x :: xs, 0, it, h => by
    simp only [modifyQuantity, List.modify_zero_cons, List.mem_cons] at h
    rcases h with h | h
    · exact Or.inr ⟨x, List.mem_cons_self _ _, h⟩
    · exact Or.inl (List.mem_cons_of_mem _ h)
  | x :: xs, i + 1, it, h => by
    simp only [modifyQuantity, List.modify_succ_cons, List.mem_cons] at h
    rcases h with h | h
    · exact Or.inl (h ▸ List.mem_cons_self _ _)
    · rcases mem_modifyQuantity f xs i it h with h' | ⟨old, hold, he⟩
      · exact Or.inl (List.mem_cons_of_mem _ h')
      · exact Or.inr ⟨old, List.mem_cons_of_mem _ hold, he⟩

theorem quantity_run (user : ObjectId) (db : Db) (op : CartOp) (q : ℚ)
    (hq : op.requestedQuantity = some q) (h1 : 1 ≤ q)
    (h : ∀ it ∈ db.cartItems user, 1 ≤ it.quantity) :
    ∀ it ∈ (op.run user db).cartItems user, 1 ≤ it.quantity := by
  cases op with
  | addItem body newId =>
    have hbq : body.quantity = q := by simpa [CartOp.requestedQuantity] using hq
    simp only [CartOp.run, addItemToCart]
    split
    · exact h
    · split
      · exact h
      · cases hc : db.findCart user with
        | none =>
          have := cartItems_saveCart db { user := user, items := [newLine body newId] }
          simp only at this ⊢
          rw [this]
          intro it hit
          have : it = newLine body newId := by simpa using hit
          rw [this]
          simpa [newLine, hbq] using h1
        | some cart =>
          have hu := findCart_user hc
          have := cartItems_saveCart db
            { cart with items := addToItems cart.items body newId }
          simp only [hu] at this ⊢
          rw [this]
          have hold : ∀ it ∈ cart.items, 1 ≤ it.quantity := by
            simpa [Db.cartItems, hc] using h
          intro it hit
          unfold addToItems at hit
          cases hidx : cart.items.findIdx? (sameLine body) with
          | none =>
            simp only [hidx, List.mem_append, List.mem_singleton] at hit
            rcases hit with hit | hit
            · exact hold it hit
            · rw [hit]
              simpa [newLine, hbq] using h1
          | some i =>
            simp only [hidx] at hit
            rcases mem_modifyQuantity _ _ _ _ hit with hit | ⟨old, hmem, he⟩
            · exact hold it hit
            · have := hold old hmem
              rw [he, hbq]
              show 1 ≤ old.quantity + q
              linarith
  | setQuantity itemId quantity =>
    have hbq : quantity = q := by simpa [CartOp.requestedQuantity] using hq
    simp only [CartOp.run, updateCartItemQuantity]
    cases hc : db.findCart user with
    | none => exact h
    | some cart =>
      have hu := findCart_user hc
      simp only
      cases hi : cart.items.findIdx? (fun item => item._id == itemId) with
      | none => exact h
      | some i =>
        simp only
        cases hx : cart.items[i]? with
        | none => exact h
        | some cartItem =>
          simp only
          cases hp : db.findProduct cartItem.product with
          | none => exact h
          | some product =>
            simp only
            split
            · exact h
            · have := cartItems_saveCart db
                { cart with items := modifyQuantity (fun _ => quantity) cart.items i }
              simp only [hu] at this ⊢
              rw [this]
              have hold : ∀ it ∈ cart.items, 1 ≤ it.quantity := by
                simpa [Db.cartItems, hc] using h
              intro it hit
              rcases mem_modifyQuantity _ _ _ _ hit with hit | ⟨old, _, he⟩
              · exact hold it hit
              · rw [he, hbq]
                exact h1
  | removeItem itemId => simp [CartOp.requestedQuantity] at hq
  | clear => simp [CartOp.requestedQuantity] at hq

theorem quantity_runOps (user : ObjectId) (ops : List CartOp)
    (hq : ∀ op ∈ ops, ∃ q, op.requestedQuantity = some q ∧ 1 ≤ q) :
    ∀ db : Db, (∀ it ∈ db.cartItems user, 1 ≤ it.quantity) →
      ∀ it ∈ (runOps user db ops).cartItems user, 1 ≤ it.quantity := by
  induction ops with
  | nil => intro db h; exact h
  | cons op ops ih =>
    intro db h
    rw [runOps_cons]
    obtain ⟨q, hrq, h1⟩ := hq op (List.mem_cons_self _ _)
    exact ih (fun o ho => hq o (List.mem_cons_of_mem _ ho)) _
      (quantity_run user db op q hrq h1 h)

/-! ## Claims about the cart -/

/-- Add-item with the product identifier sent in lower-case text.  When the product exists
and the requested quantity passes the stock check, `addItemToCart` answers 200 and stores a
cart for the user such that: if the previous cart holds a line with the request's
(product, color, size), the number of lines is unchanged, the first such line has its quantity
increased by the requested quantity and every other line is untouched; if it holds no such
line (or the user had no cart), exactly one line carrying the requested quantity is
appended. -/
theorem addItemToCart_merge_of_canonical (db : Db) (user : ObjectId) (body : AddItemBody)
    (newId : ObjectId) (product : Product)
    (hcanon : body.productId.canonical = true)
    (hp : db.findProduct body.productId.id = some product)
    (hs : ¬ product.countInStock < body.quantity) :
    ∃ cart', (addItemToCart db user body newId).2 = .ok 200 cart' ∧
      (addItemToCart db user body newId).1.findCart user = some cart' ∧
      ((∃ it ∈ db.cartItems user, lineKey it = (body.productId.id, body.color, body.size)) →
        ∃ i old, (db.cartItems user)[i]? = some old ∧
          lineKey old = (body.productId.id, body.color, body.size) ∧
          (∀ (j : Nat) (x : CartItem), j < i → (db.cartItems user)[j]? = some x →
            lineKey x ≠ (body.productId.id, body.color, body.size)) ∧
          cart'.items.length = (db.cartItems user).length ∧
          cart'.items[i]? = some { old with quantity := old.quantity + body.quantity } ∧
          ∀ j : Nat, j ≠ i → cart'.items[j]? = (db.cartItems user)[j]?) ∧
      ((∀ it ∈ db.cartItems user, lineKey it ≠ (body.productId.id, body.color, body.size)) →
        cart'.items = db.cartItems user ++
          [{ _id := newId, product := body.productId.id, quantity := body.quantity,
             color := body.color, size := body.size }]) := by
  obtain ⟨cart', hrun, huser, hitems⟩ := addItemToCart_ok db user body newId product hp hs
  refine ⟨cart', by rw [hrun], ?_, ?_, ?_⟩
  · rw [hrun, ← huser]
    exact findCart_saveCart db cart'
  · intro hex
    have hex' : ∃ it ∈ db.cartItems user, sameLine body it = true := by
      obtain ⟨it, hit, hkey⟩ := hex
      exact ⟨it, hit, (sameLine_of_canonical body it hcanon).mpr hkey⟩
    cases hc : db.findCart user with
    | none => simp [Db.cartItems, hc] at hex'
    | some cart =>
      simp only [Db.cartItems, hc] at hex' ⊢
      simp only [hc] at hitems
      rw [hitems]
      obtain ⟨i, old, hold, hsame, hbefore, hrest⟩ :=
        addToItems_of_match cart.items body newId hex'
      refine ⟨i, old, hold, (sameLine_of_canonical body old hcanon).mp hsame, ?_, hrest⟩
      intro j x hj hx hkey
      have := hbefore j x hj hx
      rw [(sameLine_of_canonical body x hcanon).mpr hkey] at this
      exact Bool.noConfusion this
  · intro hno
    have hno' : ∀ it ∈ db.cartItems user, sameLine body it = false := by
      intro it hit
      cases hsl : sameLine body it with
      | false => rfl
      | true => exact absurd ((sameLine_of_canonical body it hcanon).mp hsl) (hno it hit)
    cases hc : db.findCart user with
    | none =>
      simp only [hc] at hitems
      simp [Db.cartItems, hc, hitems, newLine]
    | some cart =>
      simp only [Db.cartItems, hc] at hno' ⊢
      simp only [hc] at hitems
      rw [hitems]
      exact addToItems_of_no_match cart.items body newId hno'

/-- Three more units of Product A, requested with the identifier in lower-case text, are
merged into the line of the example cart that holds two units of Product A. -/
theorem addItemToCart_merge_example :
    exAddBody.productId.canonical = true ∧
    (∃ it ∈ exDb.cartItems 7,
      lineKey it = (exAddBody.productId.id, exAddBody.color, exAddBody.size)) ∧
    (addItemToCart exDb 7 exAddBody 99).2 = .ok 200
      { user := 7,
        items := [{ _id := 10, product := 1, quantity := 5, color := none, size := none },
                  { _id := 11, product := 2, quantity := 1, color := none, size := none }] } := by
  refine ⟨rfl, ⟨{ _id := 10, product := 1, quantity := 2, color := none, size := none },
    by simp [Db.cartItems, Db.findCart, exDb, exCart], rfl⟩, ?_⟩
  norm_num [addItemToCart, exDb, exCart, exAddBody, exProductA, exProductB,
    Db.findProduct, Db.findCart, Db.saveCart, replaceFirst, addToItems, sameLine, toStringEq,
    modifyQuantity, newLine]

/-- Add-item with the product identifier sent in a text other than the lower-case one.  When
the product exists and the requested quantity passes the stock check, `addItemToCart` answers
200 and appends a new line to the user's cart, whatever lines the cart holds. -/
theorem addItemToCart_appends_of_not_canonical (db : Db) (user : ObjectId) (body : AddItemBody)
    (newId : ObjectId) (product : Product)
    (hcanon : body.productId.canonical = false)
    (hp : db.findProduct body.productId.id = some product)
    (hs : ¬ product.countInStock < body.quantity) :
    ∃ cart', (addItemToCart db user body newId).2 = .ok 200 cart' ∧
      (addItemToCart db user body newId).1.findCart user = some cart' ∧
      cart'.items = db.cartItems user ++
        [{ _id := newId, product := body.productId.id, quantity := body.quantity,
           color := body.color, size := body.size }] := by
  obtain ⟨cart', hrun, huser, hitems⟩ := addItemToCart_ok db user body newId product hp hs
  refine ⟨cart', by rw [hrun], ?_, ?_⟩
  · rw [hrun, ← huser]
    exact findCart_saveCart db cart'
  · cases hc : db.findCart user with
    | none =>
      simp only [hc] at hitems
      simp [Db.cartItems, hc, hitems, newLine]
    | some cart =>
      simp only [Db.cartItems, hc]
      simp only [hc] at hitems
      rw [hitems]
      exact addToItems_of_no_match cart.items body newId
        (fun it _ => sameLine_of_not_canonical body it hcanon)

/-- C1 (add-item merge), failing input.  The cart of user 7 holds one line: one unit of
Product C (identifier `0000000000000000000000ab`) without color or size.  The request asks for
one more unit of the same product, without color or size, and sends the identifier as
`0000000000000000000000AB`.  The product is found and the stock check passes (4 in stock), the
cart holds a line with the request's (product, color, size), and yet `addItemToCart` does not
merge: it answers 200 with a cart of two lines for that triple, the old line still at
quantity 1. -/
theorem addItemToCart_upper_case_id_not_merged :
    exDbLetters.findProduct exAddBodyUpperCase.productId.id = some exProductC ∧
    ¬ exProductC.countInStock < exAddBodyUpperCase.quantity ∧
    (∃ it ∈ exDbLetters.cartItems 7,
      lineKey it =
        (exAddBodyUpperCase.productId.id, exAddBodyUpperCase.color, exAddBodyUpperCase.size)) ∧
    (addItemToCart exDbLetters 7 exAddBodyUpperCase 31).2 = .ok 200
      { user := 7,
        items := [{ _id := 30, product := 171, quantity := 1, color := none, size := none },
                  { _id := 31, product := 171, quantity := 1, color := none, size := none }] } ∧
    (addItemToCart exDbLetters 7 exAddBodyUpperCase 31).1.cartItems 7 =
      [{ _id := 30, product := 171, quantity := 1, color := none, size := none },
       { _id := 31, product := 171, quantity := 1, color := none, size := none }] ∧
    ((addItemToCart exDbLetters 7 exAddBodyUpperCase 31).1.cartItems 7).length ≠
      (exDbLetters.cartItems 7).length := by
  have hrun : addItemToCart exDbLetters 7 exAddBodyUpperCase 31 =
      ({ products := [exProductC],
         carts := [{ user := 7,
                     items := [{ _id := 30, product := 171, quantity := 1, color := none,
                                 size := none },
                               { _id := 31, product := 171, quantity := 1, color := none,
                                 size := none }] }],
         orders := [] },
       .ok 200
        { user := 7,
          items := [{ _id := 30, product := 171, quantity := 1, color := none, size := none },
                    { _id := 31, product := 171, quantity := 1, color := none,
                      size := none }] }) := by
    norm_num [addItemToCart, exDbLetters, exAddBodyUpperCase, exProductC,
      Db.findProduct, Db.findCart, Db.saveCart, replaceFirst, addToItems, sameLine, toStringEq,
      modifyQuantity, newLine]
  refine ⟨rfl, by decide,
    ⟨{ _id := 30, product := 171, quantity := 1, color := none, size := none },
      by simp [Db.cartItems, Db.findCart, exDbLetters], rfl⟩, ?_, ?_, ?_⟩
  · rw [hrun]
  · rw [hrun]; rfl
  · rw [hrun]; decide

/-- C2 (add-item over stock). When the product exists and the requested quantity exceeds its
stock, `addItemToCart` fails with status 400 and the store, hence the stored cart, is exactly
what it was before the call. -/
theorem addItemToCart_over_stock (db : Db) (user : ObjectId) (body : AddItemBody)
    (newId : ObjectId) (product : Product)
    (hp : db.findProduct body.productId.id = some product)
    (hq : body.quantity > product.countInStock) :
    addItemToCart db user body newId =
      (db, .error 400 (.notEnoughStock product.name product.countInStock)) := by
  have hlt : product.countInStock < body.quantity := hq
  simp [addItemToCart, hp, hlt]

/-- Witness for C2: six units of Product A are requested while five are in stock. -/
theorem addItemToCart_over_stock_witness :
    exDb.findProduct exAddBodyOverStock.productId.id = some exProductA ∧
    exAddBodyOverStock.quantity > exProductA.countInStock ∧
    addItemToCart exDb 7 exAddBodyOverStock 99 =
      (exDb, .error 400 (.notEnoughStock "Product A" 5)) :=
  ⟨rfl, by decide, addItemToCart_over_stock exDb 7 exAddBodyOverStock 99 exProductA rfl
    (by decide)⟩

/-- The no-duplicate-line invariant for requests that send product identifiers in lower-case
text.  Starting from a store in which the user's cart is absent or empty, after any sequence
of add-item, set-item-quantity, remove-item and clear requests whose add-item requests all
carry the product identifier in lower-case text, no two lines of the user's cart share the
same (product, color, size) triple. -/
theorem no_duplicate_lines_of_canonical (user : ObjectId) (db : Db) (ops : List CartOp)
    (hcanon : ∀ op ∈ ops, op.canonical = true) (h0 : db.cartItems user = []) :
    NoDuplicateLines ((runOps user db ops).cartItems user) :=
  noDuplicateLines_runOps user ops hcanon db (by simp [h0, NoDuplicateLines])

/-- A sequence that adds the same line three times, with identifiers in lower-case text,
leaves a cart without duplicate lines. -/
theorem no_duplicate_lines_example :
    (∀ op ∈ exOps, op.canonical = true) ∧
    exDbNoCart.cartItems 7 = [] ∧
    NoDuplicateLines ((runOps 7 exDbNoCart exOps).cartItems 7) :=
  ⟨by decide, rfl, no_duplicate_lines_of_canonical 7 exDbNoCart exOps (by decide) rfl⟩

/-- C3 (no-duplicate-line invariant), failing input.  User 7 has no cart.  Two add-item
requests follow, each for one unit of Product C without color or size: the first sends the
product identifier as `0000000000000000000000ab`, the second as `0000000000000000000000AB`.
Both are accepted, and the resulting cart holds two lines with the same
(product, color, size) triple. -/
theorem no_duplicate_lines_fails_upper_case_id :
    exDbLettersNoCart.cartItems 7 = [] ∧
    (runOps 7 exDbLettersNoCart
        [.addItem exAddBodyLowerCase 30, .addItem exAddBodyUpperCase 31]).cartItems 7 =
      [{ _id := 30, product := 171, quantity := 1, color := none, size := none },
       { _id := 31, product := 171, quantity := 1, color := none, size := none }] ∧
    ¬ NoDuplicateLines
      ((runOps 7 exDbLettersNoCart
        [.addItem exAddBodyLowerCase 30, .addItem exAddBodyUpperCase 31]).cartItems 7) := by
  have hrun : (runOps 7 exDbLettersNoCart
        [.addItem exAddBodyLowerCase 30, .addItem exAddBodyUpperCase 31]).cartItems 7 =
      [{ _id := 30, product := 171, quantity := 1, color := none, size := none },
       { _id := 31, product := 171, quantity := 1, color := none, size := none }] := by
    norm_num [runOps, CartOp.run, addItemToCart, exDbLettersNoCart, exAddBodyLowerCase,
      exAddBodyUpperCase, exProductC, Db.findProduct, Db.findCart, Db.saveCart, Db.cartItems,
      replaceFirst, addToItems, sameLine, toStringEq, modifyQuantity, newLine]
  refine ⟨rfl, hrun, ?_⟩
  rw [hrun]
  decide

/-- C4, counterexample. One add-item request with quantity 0 for a product in stock, sent by a
user without a cart, is accepted and leaves a cart line of quantity 0. -/
theorem quantity_invariant_counterexample :
    exDbNoCart.cartItems 7 = [] ∧
    (∀ op ∈ [CartOp.addItem exAddBodyZero 20], op.requestedQuantity.isSome = true) ∧
    (runOps 7 exDbNoCart [.addItem exAddBodyZero 20]).cartItems 7 =
      [{ _id := 20, product := 1, quantity := 0, color := none, size := none }] ∧
    ¬ (∀ it ∈ (runOps 7 exDbNoCart [.addItem exAddBodyZero 20]).cartItems 7,
        1 ≤ it.quantity) := by
  have hrun : (runOps 7 exDbNoCart [.addItem exAddBodyZero 20]).cartItems 7 =
      [{ _id := 20, product := 1, quantity := 0, color := none, size := none }] := by
    norm_num [runOps, CartOp.run, addItemToCart, exDbNoCart, exAddBodyZero, exProductA,
      exProductB, Db.findProduct, Db.findCart, Db.saveCart, Db.cartItems, newLine]
  refine ⟨rfl, by simp [CartOp.requestedQuantity], hrun, ?_⟩
  rw [hrun]
  simp

/-- C4, amended (cart-line quantity invariant). Starting from a store in which the user's cart
is absent or empty, after any sequence of add-item and set-item-quantity requests whose
requested quantities are all at least 1, every line of the user's cart has quantity at least
1. -/
theorem quantity_at_least_one (user : ObjectId) (db : Db) (ops : List CartOp)
    (h0 : db.cartItems user = [])
    (hq : ∀ op ∈ ops, ∃ q, op.requestedQuantity = some q ∧ 1 ≤ q) :
    ∀ it ∈ (runOps user db ops).cartItems user, 1 ≤ it.quantity :=
  quantity_runOps user ops hq db (by simp [h0])

/-- Witness for C4 as amended: two additions of three units and one edit to four units. -/
theorem quantity_at_least_one_witness :
    exDbNoCart.cartItems 7 = [] ∧
    (∀ op ∈ exAddSetOps, ∃ q, op.requestedQuantity = some q ∧ 1 ≤ q) ∧
    ∀ it ∈ (runOps 7 exDbNoCart exAddSetOps).cartItems 7, 1 ≤ it.quantity :=
  have hq : ∀ op ∈ exAddSetOps, ∃ q, op.requestedQuantity = some q ∧ 1 ≤ q := by
    intro op hop
    simp only [exAddSetOps, List.mem_cons, List.mem_singleton, List.not_mem_nil, or_false]
      at hop
    rcases hop with rfl | rfl | rfl
    · exact ⟨3, rfl, by norm_num⟩
    · exact ⟨3, rfl, by norm_num⟩
    · exact ⟨4, rfl, by norm_num⟩
  ⟨rfl, hq, quantity_at_least_one 7 exDbNoCart exAddSetOps rfl hq⟩

/-! ## The checkout loop -/

theorem find?_replaceFirst_id (p : Product) (id : ObjectId) :
    ∀ l : List Product,
      (replaceFirst (fun y => y._id == p._id) p l).find? (fun y => y._id == id) =
        if id = p._id then (l.find? (fun y => y._id == p._id)).map (fun _ => p)
        else l.find? (fun y => y._id == id)
  | [] => by simp [replaceFirst]
  | y :: ys => by
    have ih := find?_replaceFirst_id p id ys
    by_cases hy : y._id = p._id
    · have hrep : replaceFirst (fun y => y._id == p._id) p (y :: ys) = p :: ys := by
        simp [replaceFirst, hy]
      rw [hrep, List.find?_cons_of_pos (p := fun y => y._id == p._id) ys (by simpa using hy)]
      by_cases hid : id = p._id
      · rw [if_pos hid, List.find?_cons_of_pos _ (by simpa using hid.symm)]
        rfl
      · have hne : ¬ p._id = id := fun h => hid h.symm
        have hne' : ¬ y._id = id := fun h => hid (h.symm.trans hy)
        rw [if_neg hid, List.find?_cons_of_neg _ (by simpa using hne),
          List.find?_cons_of_neg _ (by simpa using hne')]
    · have hrep : replaceFirst (fun y => y._id == p._id) p (y :: ys) =
          y :: replaceFirst (fun y => y._id == p._id) p ys := by
        simp [replaceFirst, hy]
      rw [hrep, List.find?_cons_of_neg (p := fun y => y._id == p._id) ys (by simpa using hy)]
      by_cases hyid : y._id = id
      · have hid : ¬ id = p._id := fun h => hy (hyid.trans h)
        rw [if_neg hid, List.find?_cons_of_pos _ (by simpa using hyid),
          List.find?_cons_of_pos _ (by simpa using hyid)]
      · rw [List.find?_cons_of_neg _ (by simpa using hyid),
          List.find?_cons_of_neg _ (by simpa using hyid), ih]

theorem findProduct_saveProduct (db : Db) (p : Product) (id : ObjectId) :
    (db.saveProduct p).findProduct id =
      if id = p._id then (db.findProduct p._id).map (fun _ => p) else db.findProduct id := by
  simp only [Db.saveProduct, Db.findProduct]
  exact find?_replaceFirst_id p id db.products

theorem findProduct_id {db : Db} {id : ObjectId} {p : Product}
    (h : db.findProduct id = some p) : p._id = id := by
  have := List.find?_some h
  simpa using this

theorem subtotal_cons (db : Db) (it : CartItem) (rest : List CartItem) :
    subtotal db (it :: rest) = db.priceOf it.product * it.quantity + subtotal db rest := by
  simp [subtotal]

theorem orderedQuantity_cons (it : CartItem) (rest : List CartItem) (id : ObjectId) :
    orderedQuantity (it :: rest) id =
      (if it.product = id then it.quantity else 0) + orderedQuantity rest id := by
  by_cases h : it.product = id <;> simp [orderedQuantity, List.filter_cons, h]

theorem priceOf_saveProduct (db : Db) (product : Product) (stock : ℚ)
    (hp : db.findProduct product._id = some product) (id : ObjectId) :
    (db.saveProduct { product with countInStock := stock }).priceOf id = db.priceOf id := by
  unfold Db.priceOf
  rw [findProduct_saveProduct]
  by_cases hid : id = product._id
  · simp [hid, hp]
  · simp [hid]

theorem subtotal_saveProduct (db : Db) (product : Product) (stock : ℚ)
    (hp : db.findProduct product._id = some product) (items : List CartItem) :
    subtotal (db.saveProduct { product with countInStock := stock }) items =
      subtotal db items := by
  simp [subtotal, priceOf_saveProduct db product stock hp]

/-- What the checkout loop has done when it runs to its end: the subtotal is the sum over the
lines of catalog price times quantity, every product has lost the total quantity of the lines
referencing it, and carts and orders are untouched. -/
theorem orderLoop_ok (db0 : Db) :
    ∀ (items : List CartItem) (db : Db) (acc : List OrderItem) (total : ℚ) (db' : Db)
      (fin : List OrderItem) (price : ℚ),
      orderLoop (populate db0 items) db acc total = (db', .ok (fin, price)) →
        price = total + subtotal db items ∧
        (∀ id, db'.findProduct id = (db.findProduct id).map
          (fun p => { p with countInStock := p.countInStock - orderedQuantity items id })) ∧
        db'.carts = db.carts ∧ db'.orders = db.orders
  | [], db, acc, total, db', fin, price, h => by
    simp only [populate, List.map_nil, orderLoop, Prod.mk.injEq, Except.ok.injEq] at h
    obtain ⟨rfl, -, rfl⟩ := h
    refine ⟨by simp [subtotal], ?_, rfl, rfl⟩
    intro id
    cases db.findProduct id <;> simp [orderedQuantity]
  | it :: rest, db, acc, total, db', fin, price, h => by
    simp only [populate, List.map_cons, orderLoop] at h
    cases hpop : db0.findProduct it.product with
    | none => simp [hpop] at h
    | some ref =>
      have href : ref._id = it.product := findProduct_id hpop
      simp only [hpop, href] at h
      cases hprod : db.findProduct it.product with
      | none => simp [hprod] at h
      | some product =>
        have hpid : product._id = it.product := findProduct_id hprod
        simp only [hprod] at h
        by_cases hlow : product.countInStock < it.quantity
        · simp [hlow] at h
        · simp only [hlow, if_false] at h
          have hprod' : db.findProduct product._id = some product := by rw [hpid]; exact hprod
          obtain ⟨hprice, hstock, hcarts, horders⟩ :=
            orderLoop_ok db0 rest _ _ _ db' fin price h
          refine ⟨?_, ?_, ?_, ?_⟩
          · rw [hprice, subtotal_saveProduct db product _ hprod', subtotal_cons]
            simp only [Db.priceOf, hprod]
            ring
          · intro id
            rw [hstock id, findProduct_saveProduct, orderedQuantity_cons]
            by_cases hid : id = it.product
            · subst hid
              simp only [hpid, if_true, hprod, Option.map_some']
              congr 1
              simp only [Product.mk.injEq, true_and, and_true]
              ring
            · have hne : ¬ it.product = id := fun h => hid h.symm
              simp only [hpid, hid, hne, if_false, zero_add]
          · rw [hcarts]; rfl
          · rw [horders]; rfl

/-- The loop is only ever left early by a `throw`. -/
theorem orderLoop_error_not_ok :
    ∀ (l : List (CartItem × Option Product)) (db : Db) (acc : List OrderItem) (total : ℚ)
      (db' : Db) (thrown : Outcome Order),
      orderLoop l db acc total = (db', .error thrown) →
        ∀ (status : Nat) (order : Order), thrown ≠ .ok status order
  | [], db, acc, total, db', thrown, h => by simp [orderLoop] at h
  | (cartItem, none) :: rest, db, acc, total, db', thrown, h => by
    simp only [orderLoop, Prod.mk.injEq, Except.error.injEq] at h
    intro status order
    rw [← h.2]
    exact fun e => Outcome.noConfusion e
  | (cartItem, some ref) :: rest, db, acc, total, db', thrown, h => by
    simp only [orderLoop] at h
    split at h
    · simp only [Prod.mk.injEq, Except.error.injEq] at h
      intro status order
      rw [← h.2]
      exact fun e => Outcome.noConfusion e
    · split at h
      · simp only [Prod.mk.injEq, Except.error.injEq] at h
        intro status order
        rw [← h.2]
        exact fun e => Outcome.noConfusion e
      · exact orderLoop_error_not_ok rest _ _ _ db' thrown h

/-- The shape of a successful `addOrderItems` call. -/
theorem addOrderItems_ok_inv (db : Db) (user : ObjectId) (body : PlaceOrderBody)
    (newId : ObjectId) (db' : Db) (status : Nat) (order : Order)
    (h : addOrderItems db user body newId = (db', .ok status order)) :
    ∃ shippingAddress paymentMethod cart db1 fin price,
      body.shippingAddress = some shippingAddress ∧
      body.paymentMethod = some paymentMethod ∧
      db.findCart user = some cart ∧ cart.items ≠ [] ∧
      orderLoop (populate db cart.items) db [] 0 = (db1, .ok (fin, price)) ∧
      order = newOrder newId user fin shippingAddress paymentMethod body price ∧
      order.valid = true ∧ status = 201 ∧
      db' = Db.saveCart { db1 with orders := db1.orders ++ [order] } { cart with items := [] } := by
  unfold addOrderItems at h
  cases hsa : body.shippingAddress with
  | none => simp [hsa] at h
  | some shippingAddress =>
    simp only [hsa] at h
    split at h
    · simp at h
    · cases hpm : body.paymentMethod with
      | none => simp [hpm] at h
      | some paymentMethod =>
        simp only [hpm] at h
        split at h
        · simp at h
        · cases hc : db.findCart user with
          | none => simp [hc] at h
          | some cart =>
            simp only [hc] at h
            split at h
            · simp at h
            · next hlen =>
              split at h
              · next db1 thrown hloop =>
                simp only [Prod.mk.injEq] at h
                obtain ⟨-, h2⟩ := h
                exact absurd h2 (orderLoop_error_not_ok _ _ _ _ _ _ hloop status order)
              · next db1 fin price hloop =>
                split at h
                · next hvalid =>
                  simp only [Prod.mk.injEq, Outcome.ok.injEq] at h
                  obtain ⟨h1, h2, h3⟩ := h
                  refine ⟨shippingAddress, paymentMethod, cart, db1, fin, price, rfl, rfl, rfl,
                    ?_, hloop, h3.symm, h3 ▸ hvalid, h2.symm, ?_⟩
                  · intro hnil
                    exact hlen (by simp [hnil])
                  · rw [← h1, ← h3]
                · simp at h

/-- The fields of the order and of the store after a successful `addOrderItems` call. -/
theorem addOrderItems_ok_facts (db : Db) (user : ObjectId) (body : PlaceOrderBody)
    (newId : ObjectId) (status : Nat) (order : Order)
    (h : (addOrderItems db user body newId).2 = .ok status order) :
    status = 201 ∧
    order.itemsPrice = subtotal db (db.cartItems user) ∧
    order.taxPrice = calculatedTaxPrice order.itemsPrice ∧
    order.shippingPrice = calculatedShippingPrice order.itemsPrice ∧
    order.totalPrice = calculatedTotalPrice order.itemsPrice ∧
    (addOrderItems db user body newId).1.cartItems user = [] ∧
    (addOrderItems db user body newId).1.findCart user = some { user := user, items := [] } ∧
    ∀ id, (addOrderItems db user body newId).1.findProduct id = (db.findProduct id).map
      (fun p => { p with
        countInStock := p.countInStock - orderedQuantity (db.cartItems user) id }) := by
  have hpair : addOrderItems db user body newId =
      ((addOrderItems db user body newId).1, .ok status order) := by
    rw [← h]
  obtain ⟨sa, pm, cart, db1, fin, price, -, -, hc, -, hloop, hord, -, hst, hdb'⟩ :=
    addOrderItems_ok_inv db user body newId _ status order hpair
  obtain ⟨hprice, hstock, -, -⟩ := orderLoop_ok db cart.items db [] 0 db1 fin price hloop
  have hu : cart.user = user := findCart_user hc
  have hitems : db.cartItems user = cart.items := by simp [Db.cartItems, hc]
  have hfind := findCart_saveCart { db1 with orders := db1.orders ++ [order] }
    { cart with items := [] }
  simp only [hu] at hfind hdb'
  refine ⟨hst, ?_, ?_, ?_, ?_, ?_, ?_, ?_⟩
  · rw [hord, hitems, hprice]
    simp [newOrder]
  · rw [hord]; rfl
  · rw [hord]; rfl
  · rw [hord]; rfl
  · rw [hdb']
    simp [Db.cartItems, hfind]
  · rw [hdb']
    exact hfind
  · intro id
    rw [hdb', hitems, ← hstock id]
    simp only [Db.findProduct, saveCart_products]

/-! ## The worked examples, evaluated -/

theorem addOrderItems_exDb_run (body : PlaceOrderBody) (newId : ObjectId)
    (a : ShippingAddress) (pm : String)
    (hsa : body.shippingAddress = some a) (hpm : body.paymentMethod = some pm)
    (haddr : truthy a.address = true ∧ truthy a.city = true ∧ truthy a.postalCode = true ∧
      truthy a.country = true ∧ truthy a.recipientName = true ∧ truthy a.phoneNumber = true)
    (hpay : pm ≠ "") :
    addOrderItems exDb 7 body newId =
      ({ products := [{ exProductA with countInStock := 3 },
                      { exProductB with countInStock := 0 }],
         carts := [{ user := 7, items := [] }],
         orders := [newOrder newId 7 [snapshot exProductA ⟨10, 1, 2, none, none⟩,
           snapshot exProductB ⟨11, 2, 1, none, none⟩] a pm body 250] },
       .ok 201 (newOrder newId 7 [snapshot exProductA ⟨10, 1, 2, none, none⟩,
         snapshot exProductB ⟨11, 2, 1, none, none⟩] a pm body 250)) := by
  obtain ⟨h1, h2, h3, h4, h5, h6⟩ := haddr
  have hloop : orderLoop (populate exDb exCart.items) exDb [] 0 =
      ({ products := [{ exProductA with countInStock := 3 },
                      { exProductB with countInStock := 0 }],
         carts := [exCart], orders := [] },
       .ok ([snapshot exProductA ⟨10, 1, 2, none, none⟩,
             snapshot exProductB ⟨11, 2, 1, none, none⟩], 250)) := by
    norm_num [populate, orderLoop, exDb, exCart, exProductA, exProductB, Db.findProduct,
      Db.saveProduct, replaceFirst, snapshot]
  have hcart : exDb.findCart 7 = some exCart := rfl
  have hvalid : (newOrder newId 7 [snapshot exProductA ⟨10, 1, 2, none, none⟩,
      snapshot exProductB ⟨11, 2, 1, none, none⟩] a pm body 250).valid = true := by
    simp [Order.valid, OrderItem.valid, newOrder, snapshot, exProductA, exProductB, h1, h2, h3,
      h4, h5, h6, hpay]
  have hne : exCart.items ≠ [] := by simp [exCart]
  simp [addOrderItems, hsa, hpm, h5, h6, hpay, hcart, hloop, hvalid, hne]
  simp [Db.saveCart, replaceFirst, exCart]

theorem addOrderItems_exDb :
    addOrderItems exDb 7 exOrderBody 100 = (exDbAfter, .ok 201 exOrder) :=
  addOrderItems_exDb_run exOrderBody 100 exAddress "UPI" rfl rfl (by decide) (by decide)

theorem addOrderItems_exDbThreshold_8 :
    (addOrderItems exDbThreshold 8 exOrderBody 100).2 = .ok 201 exOrderAtThreshold := by
  norm_num [addOrderItems, exDbThreshold, exOrderBody, exAddress, truthy, Db.findCart, populate,
    orderLoop, Db.findProduct, Db.saveProduct, replaceFirst, snapshot, exOrderAtThreshold,
    newOrder, Order.valid, OrderItem.valid]
  simp +decide

theorem addOrderItems_exDbThreshold_9 :
    (addOrderItems exDbThreshold 9 exOrderBody 100).2 = .ok 201 exOrderAboveThreshold := by
  norm_num [addOrderItems, exDbThreshold, exOrderBody, exAddress, truthy, Db.findCart, populate,
    orderLoop, Db.findProduct, Db.saveProduct, replaceFirst, snapshot, exOrderAboveThreshold,
    newOrder, Order.valid, OrderItem.valid]
  simp +decide

/-! ## Claims about checkout -/

/-- C5 (worked checkout example). With Product A (stock 5, price 100) twice and Product B
(stock 1, price 50) once in the cart, and a request carrying a complete shipping address and
a payment method, `addOrderItems` answers 201 with itemsPrice 250, taxPrice 37.5,
shippingPrice 100 and totalPrice 387.5; afterwards Product A has stock 3, Product B has stock
0 and the cart's item list is empty. -/
theorem addOrderItems_worked_example (body : PlaceOrderBody) (newId : ObjectId)
    (a : ShippingAddress) (pm : String)
    (hsa : body.shippingAddress = some a) (hpm : body.paymentMethod = some pm)
    (haddr : truthy a.address = true ∧ truthy a.city = true ∧ truthy a.postalCode = true ∧
      truthy a.country = true ∧ truthy a.recipientName = true ∧ truthy a.phoneNumber = true)
    (hpay : pm ≠ "") :
    ∃ order, (addOrderItems exDb 7 body newId).2 = .ok 201 order ∧
      order.itemsPrice = 250 ∧ order.taxPrice = 37.5 ∧ order.shippingPrice = 100 ∧
      order.totalPrice = 387.5 ∧
      (addOrderItems exDb 7 body newId).1.products =
        [{ exProductA with countInStock := 3 }, { exProductB with countInStock := 0 }] ∧
      (addOrderItems exDb 7 body newId).1.carts = [{ user := 7, items := [] }] := by
  rw [addOrderItems_exDb_run body newId a pm hsa hpm haddr hpay]
  refine ⟨_, rfl, rfl, ?_, ?_, ?_, rfl, rfl⟩
  · norm_num [newOrder, calculatedTaxPrice]
  · norm_num [newOrder, calculatedShippingPrice]
  · norm_num [newOrder, calculatedTotalPrice, calculatedTaxPrice, calculatedShippingPrice]

/-- Witness for C5: the request of the worked example. -/
theorem addOrderItems_worked_example_witness :
    exOrderBody.shippingAddress = some exAddress ∧ exOrderBody.paymentMethod = some "UPI" ∧
    (truthy exAddress.address = true ∧ truthy exAddress.city = true ∧
      truthy exAddress.postalCode = true ∧ truthy exAddress.country = true ∧
      truthy exAddress.recipientName = true ∧ truthy exAddress.phoneNumber = true) ∧
    "UPI" ≠ "" ∧
    ∃ order, (addOrderItems exDb 7 exOrderBody 100).2 = .ok 201 order ∧
      order.itemsPrice = 250 ∧ order.taxPrice = 37.5 ∧ order.shippingPrice = 100 ∧
      order.totalPrice = 387.5 ∧
      (addOrderItems exDb 7 exOrderBody 100).1.products =
        [{ exProductA with countInStock := 3 }, { exProductB with countInStock := 0 }] ∧
      (addOrderItems exDb 7 exOrderBody 100).1.carts = [{ user := 7, items := [] }] :=
  ⟨rfl, rfl, by decide, by decide,
    addOrderItems_worked_example exOrderBody 100 exAddress "UPI" rfl rfl (by decide)
      (by decide)⟩

/-- C6 (shipping threshold is exclusive). For every successful order placement the order's
itemsPrice is the subtotal recomputed from the cart and the catalog, and its shippingPrice is
0 if that subtotal is strictly greater than 1000 and 100 otherwise; in particular a subtotal
of exactly 1000 gives shipping 100 and a subtotal of 1000.01 gives shipping 0. -/
theorem shipping_threshold_exclusive (db : Db) (user : ObjectId) (body : PlaceOrderBody)
    (newId : ObjectId) (status : Nat) (order : Order)
    (h : (addOrderItems db user body newId).2 = .ok status order) :
    order.itemsPrice = subtotal db (db.cartItems user) ∧
    order.shippingPrice = (if order.itemsPrice > 1000 then 0 else 100) ∧
    (order.itemsPrice = 1000 → order.shippingPrice = 100) ∧
    (order.itemsPrice = 1000.01 → order.shippingPrice = 0) := by
  obtain ⟨-, hitems, -, hship, -⟩ := addOrderItems_ok_facts db user body newId status order h
  refine ⟨hitems, hship, ?_, ?_⟩
  · intro h1000
    rw [hship, h1000]
    norm_num [calculatedShippingPrice]
  · intro h1000
    rw [hship, h1000]
    norm_num [calculatedShippingPrice]

/-- Witness for C6: the order of user 8, whose subtotal is exactly 1000. -/
theorem shipping_threshold_exclusive_witness :
    (addOrderItems exDbThreshold 8 exOrderBody 100).2 = .ok 201 exOrderAtThreshold ∧
    exOrderAtThreshold.itemsPrice = 1000 ∧ exOrderAtThreshold.shippingPrice = 100 :=
  have h := shipping_threshold_exclusive exDbThreshold 8 exOrderBody 100 201
    exOrderAtThreshold addOrderItems_exDbThreshold_8
  ⟨addOrderItems_exDbThreshold_8, rfl, h.2.2.1 rfl⟩

/-- The other side of the boundary: the order of user 9, whose subtotal is 1000.01, ships for
free. -/
theorem shipping_above_threshold_example :
    (addOrderItems exDbThreshold 9 exOrderBody 100).2 = .ok 201 exOrderAboveThreshold ∧
    exOrderAboveThreshold.itemsPrice = 1000.01 ∧ exOrderAboveThreshold.shippingPrice = 0 :=
  ⟨addOrderItems_exDbThreshold_9, rfl, by
    norm_num [exOrderAboveThreshold, newOrder, calculatedShippingPrice]⟩

/-- C7 (tax rule). For every successful order placement the order's taxPrice is exactly
15/100 of its itemsPrice, and its itemsPrice is the sum over the cart lines of the catalog
price of the line's product times the line's quantity. -/
theorem tax_is_fifteen_percent (db : Db) (user : ObjectId) (body : PlaceOrderBody)
    (newId : ObjectId) (status : Nat) (order : Order)
    (h : (addOrderItems db user body newId).2 = .ok status order) :
    order.taxPrice = 15 / 100 * order.itemsPrice ∧
    order.itemsPrice =
      ((db.cartItems user).map (fun line => db.priceOf line.product * line.quantity)).sum := by
  obtain ⟨-, hitems, htax, -⟩ := addOrderItems_ok_facts db user body newId status order h
  refine ⟨?_, hitems⟩
  rw [htax, calculatedTaxPrice]
  ring

/-- Witness for C7: the worked checkout example. -/
theorem tax_is_fifteen_percent_witness :
    (addOrderItems exDb 7 exOrderBody 100).2 = .ok 201 exOrder ∧
    exOrder.taxPrice = 15 / 100 * exOrder.itemsPrice ∧
    exOrder.itemsPrice =
      ((exDb.cartItems 7).map (fun line => exDb.priceOf line.product * line.quantity)).sum :=
  have hrun : (addOrderItems exDb 7 exOrderBody 100).2 = .ok 201 exOrder := by
    rw [addOrderItems_exDb]
  ⟨hrun, tax_is_fifteen_percent exDb 7 exOrderBody 100 201 exOrder hrun⟩

/-- C8 (total rule). For every successful order placement the created order satisfies
totalPrice = itemsPrice + taxPrice + shippingPrice. -/
theorem total_is_sum (db : Db) (user : ObjectId) (body : PlaceOrderBody)
    (newId : ObjectId) (status : Nat) (order : Order)
    (h : (addOrderItems db user body newId).2 = .ok status order) :
    order.totalPrice = order.itemsPrice + order.taxPrice + order.shippingPrice := by
  obtain ⟨-, -, htax, hship, htotal, -⟩ :=
    addOrderItems_ok_facts db user body newId status order h
  rw [htotal, calculatedTotalPrice, ← htax, ← hship]

/-- Witness for C8: the worked checkout example. -/
theorem total_is_sum_witness :
    (addOrderItems exDb 7 exOrderBody 100).2 = .ok 201 exOrder ∧
    exOrder.totalPrice = exOrder.itemsPrice + exOrder.taxPrice + exOrder.shippingPrice :=
  have hrun : (addOrderItems exDb 7 exOrderBody 100).2 = .ok 201 exOrder := by
    rw [addOrderItems_exDb]
  ⟨hrun, total_is_sum exDb 7 exOrderBody 100 201 exOrder hrun⟩

/-- C9 (client prices are ignored). Two place-order requests of the same user on the same
store that agree on shipping address, payment method, delivery message and gift-wrap flag,
and so differ at most in the client-sent orderItems, itemsPrice, taxPrice, shippingPrice and
totalPrice, have the same outcome and leave the same store. -/
theorem client_prices_ignored (db : Db) (user : ObjectId) (body₁ body₂ : PlaceOrderBody)
    (newId : ObjectId)
    (hsa : body₁.shippingAddress = body₂.shippingAddress)
    (hpm : body₁.paymentMethod = body₂.paymentMethod)
    (hmsg : body₁.messageForDelivery = body₂.messageForDelivery)
    (hgift : body₁.giftWrapped = body₂.giftWrapped) :
    addOrderItems db user body₁ newId = addOrderItems db user body₂ newId := by
  simp only [addOrderItems, newOrder, hsa, hpm, hmsg, hgift]

/-- Witness for C9: the request of the worked example and a request with forged items and
prices. -/
theorem client_prices_ignored_witness :
    exOrderBody.shippingAddress = exForgedBody.shippingAddress ∧
    exOrderBody.paymentMethod = exForgedBody.paymentMethod ∧
    exOrderBody.messageForDelivery = exForgedBody.messageForDelivery ∧
    exOrderBody.giftWrapped = exForgedBody.giftWrapped ∧
    exOrderBody.itemsPrice ≠ exForgedBody.itemsPrice ∧
    addOrderItems exDb 7 exOrderBody 100 = addOrderItems exDb 7 exForgedBody 100 :=
  ⟨rfl, rfl, rfl, rfl, by decide,
    client_prices_ignored exDb 7 exOrderBody exForgedBody 100 rfl rfl rfl rfl⟩

/-- C10 (checkout post-state). After every successful `addOrderItems` call the user's cart
document still exists with an empty item list, every product's stock is its previous stock
minus the total quantity of the cart lines that referenced it, and a product referenced by no
cart line is unchanged. -/
theorem checkout_post_state (db : Db) (user : ObjectId) (body : PlaceOrderBody)
    (newId : ObjectId) (status : Nat) (order : Order)
    (h : (addOrderItems db user body newId).2 = .ok status order) :
    (addOrderItems db user body newId).1.findCart user = some { user := user, items := [] } ∧
    (∀ id p, db.findProduct id = some p →
      ∃ p', (addOrderItems db user body newId).1.findProduct id = some p' ∧
        p'.countInStock = p.countInStock - orderedQuantity (db.cartItems user) id) ∧
    (∀ id, (∀ line ∈ db.cartItems user, line.product ≠ id) →
      (addOrderItems db user body newId).1.findProduct id = db.findProduct id) := by
  obtain ⟨-, -, -, -, -, -, hcart, hstock⟩ :=
    addOrderItems_ok_facts db user body newId status order h
  refine ⟨hcart, ?_, ?_⟩
  · intro id p hp
    rw [hstock id, hp]
    exact ⟨_, rfl, rfl⟩
  · intro id hno
    have hzero : orderedQuantity (db.cartItems user) id = 0 := by
      have : (db.cartItems user).filter (fun it => it.product == id) = [] := by
        rw [List.filter_eq_nil_iff]
        intro line hline
        simpa using hno line hline
      simp [orderedQuantity, this]
    rw [hstock id, hzero]
    cases db.findProduct id <;> simp

/-- Witness for C10: the worked checkout example. -/
theorem checkout_post_state_witness :
    (addOrderItems exDb 7 exOrderBody 100).2 = .ok 201 exOrder ∧
    (addOrderItems exDb 7 exOrderBody 100).1.findCart 7 = some { user := 7, items := [] } ∧
    (∀ id p, exDb.findProduct id = some p →
      ∃ p', (addOrderItems exDb 7 exOrderBody 100).1.findProduct id = some p' ∧
        p'.countInStock = p.countInStock - orderedQuantity (exDb.cartItems 7) id) ∧
    (∀ id, (∀ line ∈ exDb.cartItems 7, line.product ≠ id) →
      (addOrderItems exDb 7 exOrderBody 100).1.findProduct id = exDb.findProduct id) :=
  have hrun : (addOrderItems exDb 7 exOrderBody 100).2 = .ok 201 exOrder := by
    rw [addOrderItems_exDb]
  ⟨hrun, checkout_post_state exDb 7 exOrderBody 100 201 exOrder hrun⟩

/-! ## Order lines built by the checkout loop -/

theorem snapshotLine_saveProduct (db : Db) (product : Product) (stock : ℚ)
    (hp : db.findProduct product._id = some product) (line : CartItem) :
    snapshotLine (db.saveProduct { product with countInStock := stock }) line =
      snapshotLine db line := by
  unfold snapshotLine
  rw [findProduct_saveProduct]
  by_cases hid : line.product = product._id
  · simp [hid, hp, snapshot]
  · simp [hid]

/-- When the checkout loop runs to its end, it has appended to `finalOrderItems` one order line
per cart line, in order, each built from the catalog entry of the line's product. -/
theorem orderLoop_ok_lines (db0 : Db) :
    ∀ (items : List CartItem) (db : Db) (acc : List OrderItem) (total : ℚ) (db' : Db)
      (fin : List OrderItem) (price : ℚ),
      orderLoop (populate db0 items) db acc total = (db', .ok (fin, price)) →
        fin.map some = acc.map some ++ items.map (snapshotLine db)
  | [], db, acc, total, db', fin, price, h => by
    simp only [populate, List.map_nil, orderLoop, Prod.mk.injEq, Except.ok.injEq] at h
    obtain ⟨-, rfl, -⟩ := h
    simp
  | it :: rest, db, acc, total, db', fin, price, h => by
    simp only [populate, List.map_cons, orderLoop] at h
    cases hpop : db0.findProduct it.product with
    | none => simp [hpop] at h
    | some ref =>
      have href : ref._id = it.product := findProduct_id hpop
      simp only [hpop, href] at h
      cases hprod : db.findProduct it.product with
      | none => simp [hprod] at h
      | some product =>
        have hpid : product._id = it.product := findProduct_id hprod
        simp only [hprod] at h
        by_cases hlow : product.countInStock < it.quantity
        · simp [hlow] at h
        · simp only [hlow, if_false] at h
          have hprod' : db.findProduct product._id = some product := by rw [hpid]; exact hprod
          have ih := orderLoop_ok_lines db0 rest _ _ _ db' fin price h
          rw [ih]
          have hrest : rest.map (snapshotLine (db.saveProduct
              { product with countInStock := product.countInStock - it.quantity })) =
              rest.map (snapshotLine db) := by
            apply List.map_congr_left
            intro line _
            exact snapshotLine_saveProduct db product _ hprod' line
          rw [hrest]
          simp [snapshotLine, hprod]

theorem addOrderItems_ok_lines (db : Db) (user : ObjectId) (body : PlaceOrderBody)
    (newId : ObjectId) (status : Nat) (order : Order)
    (h : (addOrderItems db user body newId).2 = .ok status order) :
    order.orderItems.map some = (db.cartItems user).map (snapshotLine db) := by
  have hpair : addOrderItems db user body newId =
      ((addOrderItems db user body newId).1, .ok status order) := by
    rw [← h]
  obtain ⟨sa, pm, cart, db1, fin, price, -, -, hc, -, hloop, hord, -, -, -⟩ :=
    addOrderItems_ok_inv db user body newId _ status order hpair
  have hitems : db.cartItems user = cart.items := by simp [Db.cartItems, hc]
  have := orderLoop_ok_lines db cart.items db [] 0 db1 fin price hloop
  rw [hord, hitems]
  simpa [newOrder] using this

/-! ## Claims about the created order -/

/-- C11 (order snapshot content). For every successful `addOrderItems` call the created order
has exactly one order line per cart line, in cart order, and the i-th order line carries the
name, image and price that the catalog holds for the i-th cart line's product at the time of
the call, together with that cart line's quantity, color and size. -/
theorem order_snapshot_content (db : Db) (user : ObjectId) (body : PlaceOrderBody)
    (newId : ObjectId) (status : Nat) (order : Order)
    (h : (addOrderItems db user body newId).2 = .ok status order) :
    order.orderItems.length = (db.cartItems user).length ∧
    ∀ (i : Nat) (line : CartItem), (db.cartItems user)[i]? = some line →
      ∃ p, db.findProduct line.product = some p ∧
        order.orderItems[i]? = some
          { name := p.name, quantity := line.quantity, image := p.image, price := p.price,
            product := line.product, color := line.color, size := line.size } := by
  have hmap := addOrderItems_ok_lines db user body newId status order h
  refine ⟨?_, ?_⟩
  · have := congrArg List.length hmap
    simpa using this
  · intro i line hline
    have hi := congrArg (fun l => l[i]?) hmap
    simp only [List.getElem?_map, hline, Option.map_some'] at hi
    cases hp : db.findProduct line.product with
    | none =>
      simp only [snapshotLine, hp, Option.map_none'] at hi
      cases hoi : order.orderItems[i]? <;> simp [hoi] at hi
    | some p =>
      refine ⟨p, rfl, ?_⟩
      have hpid : p._id = line.product := findProduct_id hp
      simp only [snapshotLine, hp, Option.map_some', snapshot, hpid] at hi
      cases hoi : order.orderItems[i]? with
      | none => simp [hoi] at hi
      | some oi =>
        simp only [hoi, Option.map_some', Option.some.injEq] at hi
        rw [hi]

/-- Witness for C11: the worked checkout example. -/
theorem order_snapshot_content_witness :
    (addOrderItems exDb 7 exOrderBody 100).2 = .ok 201 exOrder ∧
    exOrder.orderItems.length = (exDb.cartItems 7).length ∧
    ∀ (i : Nat) (line : CartItem), (exDb.cartItems 7)[i]? = some line →
      ∃ p, exDb.findProduct line.product = some p ∧
        exOrder.orderItems[i]? = some
          { name := p.name, quantity := line.quantity, image := p.image, price := p.price,
            product := line.product, color := line.color, size := line.size } :=
  have hrun : (addOrderItems exDb 7 exOrderBody 100).2 = .ok 201 exOrder := by
    rw [addOrderItems_exDb]
  ⟨hrun, order_snapshot_content exDb 7 exOrderBody 100 201 exOrder hrun⟩

/-! ## Failing checkouts -/

theorem mem_replaceFirst {α : Type} (p : α → Bool) (x : α) :
    ∀ (l : List α) (y : α), y ∈ replaceFirst p x l → y = x ∨ y ∈ l
  | [], y, h => by simp [replaceFirst] at h
  | z :: zs, y, h => by
    unfold replaceFirst at h
    split at h
    · rcases List.mem_cons.mp h with h | h
      · exact Or.inl h
      · exact Or.inr (List.mem_cons_of_mem _ h)
    · rcases List.mem_cons.mp h with h | h
      · exact Or.inr (h ▸ List.mem_cons_self _ _)
      · rcases mem_replaceFirst p x zs y h with h | h
        · exact Or.inl h
        · exact Or.inr (List.mem_cons_of_mem _ h)

/-- The checkout loop never writes a negative stock count, whether it runs to its end or is
left by a `throw`. -/
theorem orderLoop_stock_nonneg :
    ∀ (l : List (CartItem × Option Product)) (db : Db) (acc : List OrderItem) (total : ℚ),
      (∀ p ∈ db.products, 0 ≤ p.countInStock) →
        ∀ p ∈ (orderLoop l db acc total).1.products, 0 ≤ p.countInStock
  | [], db, acc, total, h0 => by simpa [orderLoop] using h0
  | (cartItem, none) :: rest, db, acc, total, h0 => by simpa [orderLoop] using h0
  | (cartItem, some ref) :: rest, db, acc, total, h0 => by
    simp only [orderLoop]
    split
    · exact h0
    · next product hprod =>
      split
      · exact h0
      · next hlow =>
        apply orderLoop_stock_nonneg rest
        intro p hp
        rcases mem_replaceFirst _ _ _ _ hp with hp | hp
        · rw [hp]
          show 0 ≤ product.countInStock - cartItem.quantity
          linarith [not_lt.mp hlow]
        · exact h0 p hp

/-- Within one call the checkout loop never reaches its "Product not found" branch: a cart
line whose product is gone is populated with `null`, and reading `cartItem.product._id` throws
before `Product.findById` is called; a product that was populated is still found, since the
loop only rewrites stock counts. -/
theorem orderLoop_not_404 (db0 : Db) :
    ∀ (items : List CartItem) (db : Db) (acc : List OrderItem) (total : ℚ),
      (∀ id, (db0.findProduct id).isSome = true → (db.findProduct id).isSome = true) →
        ∀ message, (orderLoop (populate db0 items) db acc total).2 ≠
          .error (.error 404 message)
  | [], db, acc, total, _, message => by simp [populate, orderLoop]
  | it :: rest, db, acc, total, hinv, message => by
    simp only [populate, List.map_cons, orderLoop]
    cases hpop : db0.findProduct it.product with
    | none => simp
    | some ref =>
      have href : ref._id = it.product := findProduct_id hpop
      have hsome := hinv it.product (by simp [hpop])
      simp only [href]
      cases hprod : db.findProduct it.product with
      | none => simp [hprod] at hsome
      | some product =>
        have hpid : product._id = it.product := findProduct_id hprod
        simp only
        split
        · simp
        · apply orderLoop_not_404 db0 rest
          intro id hid
          rw [findProduct_saveProduct]
          by_cases hc : id = product._id
          · simp [hc, hpid, hprod]
          · simp only [hc, if_false]
            exact hinv id hid

/-- No `addOrderItems` call answers 404. -/
theorem addOrderItems_not_404 (db : Db) (user : ObjectId) (body : PlaceOrderBody)
    (newId : ObjectId) (message : ErrorMessage) :
    (addOrderItems db user body newId).2 ≠ .error 404 message := by
  unfold addOrderItems
  split
  · simp
  · split
    · simp
    · split
      · simp
      · split
        · simp
        · split
          · simp
          · next cart _ =>
            split
            · simp
            · have hloop := orderLoop_not_404 db cart.items db [] 0 (fun _ h => h) message
              split
              · next db1 thrown heq =>
                rw [heq] at hloop
                intro hthrown
                apply hloop
                simp only at hthrown
                rw [hthrown]
              · simp only
                split <;> simp

/-- C12 (checkout preconditions). If the shipping address is missing, or lacks a recipient
name or a phone number, or the payment method is missing or empty, or the user has no cart or
an empty cart, `addOrderItems` fails with status 400 and returns the store as it was: no order
is created, no product stock changes and the cart is unchanged. -/
theorem checkout_preconditions (db : Db) (user : ObjectId) (body : PlaceOrderBody)
    (newId : ObjectId)
    (h : body.shippingAddress = none ∨
      (∃ a, body.shippingAddress = some a ∧
        (truthy a.recipientName = false ∨ truthy a.phoneNumber = false)) ∨
      truthy body.paymentMethod = false ∨
      db.findCart user = none ∨
      (∃ cart, db.findCart user = some cart ∧ cart.items = [])) :
    ∃ message, addOrderItems db user body newId = (db, .error 400 message) := by
  unfold addOrderItems
  cases hsa : body.shippingAddress with
  | none => exact ⟨_, rfl⟩
  | some a =>
    simp only
    by_cases haddr : (!truthy a.recipientName || !truthy a.phoneNumber) = true
    · rw [if_pos haddr]
      exact ⟨_, rfl⟩
    · rw [if_neg haddr]
      have hname : truthy a.recipientName = true := by
        cases hn : truthy a.recipientName
        · simp [hn] at haddr
        · rfl
      have hphone : truthy a.phoneNumber = true := by
        cases hn : truthy a.phoneNumber
        · simp [hn] at haddr
        · rfl
      cases hpm : body.paymentMethod with
      | none => exact ⟨_, rfl⟩
      | some pm =>
        simp only
        by_cases hempty : (pm == "") = true
        · rw [if_pos hempty]
          exact ⟨_, rfl⟩
        · rw [if_neg hempty]
          cases hc : db.findCart user with
          | none => exact ⟨_, rfl⟩
          | some cart =>
            simp only
            by_cases hlen : cart.items.length = 0
            · rw [if_pos hlen]
              exact ⟨_, rfl⟩
            · exfalso
              rcases h with h | ⟨a', ha', h⟩ | h | h | ⟨cart', hc', h⟩
              · rw [hsa] at h
                exact Option.noConfusion h
              · rw [hsa] at ha'
                obtain rfl := Option.some.inj ha'
                rcases h with h | h
                · rw [hname] at h
                  exact Bool.noConfusion h
                · rw [hphone] at h
                  exact Bool.noConfusion h
              · rw [hpm] at h
                simp [truthy] at h
                exact hempty (by simp [h])
              · rw [hc] at h
                exact Option.noConfusion h
              · rw [hc] at hc'
                obtain rfl := Option.some.inj hc'
                exact hlen (by simp [h])

/-- Witness for C12: a complete request of a user who has no cart. -/
theorem checkout_preconditions_witness :
    (exOrderBody.shippingAddress = none ∨
      (∃ a, exOrderBody.shippingAddress = some a ∧
        (truthy a.recipientName = false ∨ truthy a.phoneNumber = false)) ∨
      truthy exOrderBody.paymentMethod = false ∨
      exDbNoCart.findCart 7 = none ∨
      (∃ cart, exDbNoCart.findCart 7 = some cart ∧ cart.items = [])) ∧
    ∃ message, addOrderItems exDbNoCart 7 exOrderBody 100 = (exDbNoCart, .error 400 message) :=
  ⟨Or.inr (Or.inr (Or.inr (Or.inl rfl))),
    checkout_preconditions exDbNoCart 7 exOrderBody 100 (Or.inr (Or.inr (Or.inr (Or.inl rfl))))⟩

theorem addOrderItems_exDbShort :
    addOrderItems exDbShort 7 exOrderBody 100 =
      ({ exDbShort with
          products := [{ exProductA with countInStock := 3 }, exProductB] },
       .error 400 (.notEnoughStock "Product B" 1)) := by
  norm_num [addOrderItems, exDbShort, exOrderBody, exAddress, truthy, Db.findCart, populate,
    orderLoop, Db.findProduct, Db.saveProduct, replaceFirst, snapshot, exProductA, exProductB]
  simp +decide

/-- C13 (non-atomic checkout failure). There is a store whose cart has two lines such that
`addOrderItems` fails at the second line for insufficient stock with status 400, creates no
order and leaves the carts as they were, while the product of the first line has lost that
line's quantity. -/
theorem checkout_failure_not_atomic :
    ∃ (db : Db) (user : ObjectId) (body : PlaceOrderBody) (newId : ObjectId)
      (first : CartItem) (p : Product),
      2 ≤ (db.cartItems user).length ∧
      (db.cartItems user)[0]? = some first ∧
      db.findProduct first.product = some p ∧
      ((∃ name available, (addOrderItems db user body newId).2 =
          .error 400 (.notEnoughStock name available)) ∨
        (∃ product, (addOrderItems db user body newId).2 =
          .error 404 (.orderProductNotFound product))) ∧
      (addOrderItems db user body newId).1.orders = db.orders ∧
      (addOrderItems db user body newId).1.carts = db.carts ∧
      (addOrderItems db user body newId).1.findProduct first.product =
        some { p with countInStock := p.countInStock - first.quantity } ∧
      0 < first.quantity := by
  refine ⟨exDbShort, 7, exOrderBody, 100,
    { _id := 10, product := 1, quantity := 2, color := none, size := none }, exProductA,
    by decide, rfl, rfl, Or.inl ⟨"Product B", 1, ?_⟩, ?_, ?_, ?_, by norm_num⟩
  · rw [addOrderItems_exDbShort]
  · rw [addOrderItems_exDbShort]
  · rw [addOrderItems_exDbShort]
  · rw [addOrderItems_exDbShort]
    norm_num [Db.findProduct, exProductA]

/-- C14 (stock never goes negative at checkout). If no product of the catalog has a negative
stock count then, whatever the cart holds and whether `addOrderItems` succeeds or fails, no
product has a negative stock count afterwards. -/
theorem checkout_stock_nonneg (db : Db) (user : ObjectId) (body : PlaceOrderBody)
    (newId : ObjectId) (h0 : ∀ p ∈ db.products, 0 ≤ p.countInStock) :
    ∀ p ∈ (addOrderItems db user body newId).1.products, 0 ≤ p.countInStock := by
  unfold addOrderItems
  split
  · exact h0
  · split
    · exact h0
    · split
      · exact h0
      · split
        · exact h0
        · split
          · exact h0
          · next cart _ =>
            split
            · exact h0
            · have hloop := orderLoop_stock_nonneg (populate db cart.items) db [] 0 h0
              split
              · next db1 thrown heq =>
                rw [heq] at hloop
                exact hloop
              · next db1 fin price heq =>
                rw [heq] at hloop
                simp only
                split
                · rw [saveCart_products]
                  exact hloop
                · exact hloop

/-- Witness for C14: the failing checkout on the store with too little stock of Product B. -/
theorem checkout_stock_nonneg_witness :
    (∀ p ∈ exDbShort.products, 0 ≤ p.countInStock) ∧
    ∀ p ∈ (addOrderItems exDbShort 7 exOrderBody 100).1.products, 0 ≤ p.countInStock :=
  have h0 : ∀ p ∈ exDbShort.products, 0 ≤ p.countInStock := by
    intro p hp
    simp only [exDbShort, List.mem_cons, List.mem_singleton, List.not_mem_nil, or_false] at hp
    rcases hp with rfl | rfl <;> norm_num [exProductA, exProductB]
  ⟨h0, checkout_stock_nonneg exDbShort 7 exOrderBody 100 h0⟩

/-- A successful `addOrderItems` call appends the order built by `new Order` to the stored
orders. -/
theorem addOrderItems_ok_orders (db : Db) (user : ObjectId) (body : PlaceOrderBody)
    (newId : ObjectId) (status : Nat) (order : Order)
    (h : (addOrderItems db user body newId).2 = .ok status order) :
    (addOrderItems db user body newId).1.orders = db.orders ++ [order] ∧
    ∃ fin sa pm price, order = newOrder newId user fin sa pm body price := by
  have hpair : addOrderItems db user body newId =
      ((addOrderItems db user body newId).1, .ok status order) := by
    rw [← h]
  obtain ⟨sa, pm, cart, db1, fin, price, -, -, -, -, hloop, hord, -, -, hdb'⟩ :=
    addOrderItems_ok_inv db user body newId _ status order hpair
  obtain ⟨-, -, -, horders⟩ := orderLoop_ok db cart.items db [] 0 db1 fin price hloop
  refine ⟨?_, fin, sa, pm, price, hord⟩
  rw [hdb', saveCart_orders, horders]

/-- C15 (new-order defaults). Every order created by `addOrderItems` is appended to the stored
orders with isPaid, isDelivered, paymentConfirmedByAdmin, orderPlacedWithQikink and
fulfilmentDone all false and without paidAt or deliveredAt, whatever the request body holds. -/
theorem new_order_defaults (db : Db) (user : ObjectId) (body : PlaceOrderBody)
    (newId : ObjectId) (status : Nat) (order : Order)
    (h : (addOrderItems db user body newId).2 = .ok status order) :
    (addOrderItems db user body newId).1.orders = db.orders ++ [order] ∧
    order.isPaid = false ∧ order.isDelivered = false ∧
    order.paymentConfirmedByAdmin = false ∧ order.orderPlacedWithQikink = false ∧
    order.fulfilmentDone = false ∧ order.paidAt = none ∧ order.deliveredAt = none := by
  obtain ⟨horders, fin, sa, pm, price, hord⟩ :=
    addOrderItems_ok_orders db user body newId status order h
  refine ⟨horders, ?_⟩
  rw [hord]
  exact ⟨rfl, rfl, rfl, rfl, rfl, rfl, rfl⟩

/-- Witness for C15: the worked checkout example. -/
theorem new_order_defaults_witness :
    (addOrderItems exDb 7 exOrderBody 100).2 = .ok 201 exOrder ∧
    (addOrderItems exDb 7 exOrderBody 100).1.orders = exDb.orders ++ [exOrder] ∧
    exOrder.isPaid = false ∧ exOrder.isDelivered = false ∧
    exOrder.paymentConfirmedByAdmin = false ∧ exOrder.orderPlacedWithQikink = false ∧
    exOrder.fulfilmentDone = false ∧ exOrder.paidAt = none ∧ exOrder.deliveredAt = none :=
  have hrun : (addOrderItems exDb 7 exOrderBody 100).2 = .ok 201 exOrder := by
    rw [addOrderItems_exDb]
  ⟨hrun, new_order_defaults exDb 7 exOrderBody 100 201 exOrder hrun⟩

/-! ## Updating an order -/

theorem find?_replaceFirst_key {α : Type} (key : α → Nat) (x : α) (id : Nat) :
    ∀ l : List α,
      (replaceFirst (fun y => key y == key x) x l).find? (fun y => key y == id) =
        if id = key x then (l.find? (fun y => key y == key x)).map (fun _ => x)
        else l.find? (fun y => key y == id)
  | [] => by simp [replaceFirst]
  | y :: ys => by
    have ih := find?_replaceFirst_key key x id ys
    by_cases hy : key y = key x
    · have hrep : replaceFirst (fun y => key y == key x) x (y :: ys) = x :: ys := by
        simp [replaceFirst, hy]
      rw [hrep, List.find?_cons_of_pos (p := fun y => key y == key x) ys (by simpa using hy)]
      by_cases hid : id = key x
      · rw [if_pos hid, List.find?_cons_of_pos _ (by simpa using hid.symm)]
        rfl
      · have hne : ¬ key x = id := fun h => hid h.symm
        have hne' : ¬ key y = id := fun h => hid (h.symm.trans hy)
        rw [if_neg hid, List.find?_cons_of_neg _ (by simpa using hne),
          List.find?_cons_of_neg _ (by simpa using hne')]
    · have hrep : replaceFirst (fun y => key y == key x) x (y :: ys) =
          y :: replaceFirst (fun y => key y == key x) x ys := by
        simp [replaceFirst, hy]
      rw [hrep, List.find?_cons_of_neg (p := fun y => key y == key x) ys (by simpa using hy)]
      by_cases hyid : key y = id
      · have hid : ¬ id = key x := fun h => hy (hyid.trans h)
        rw [if_neg hid, List.find?_cons_of_pos _ (by simpa using hyid),
          List.find?_cons_of_pos _ (by simpa using hyid)]
      · rw [List.find?_cons_of_neg _ (by simpa using hyid),
          List.find?_cons_of_neg _ (by simpa using hyid), ih]

theorem findOrder_saveOrder (db : Db) (o : Order) (id : ObjectId) :
    (db.saveOrder o).findOrder id =
      if id = o._id then (db.findOrder o._id).map (fun _ => o) else db.findOrder id := by
  simp only [Db.saveOrder, Db.findOrder]
  exact find?_replaceFirst_key (fun y : Order => y._id) o id db.orders

theorem findOrder_id {db : Db} {id : ObjectId} {o : Order}
    (h : db.findOrder id = some o) : o._id = id := by
  have := List.find?_some h
  simpa using this

/-- Saving a changed copy of the order found under `id` makes that copy the order found under
`id`. -/
theorem findOrder_saveOrder_self (db : Db) (id : ObjectId) (order o : Order)
    (h : db.findOrder id = some order) (hid : o._id = id) :
    (db.saveOrder o).findOrder id = some o := by
  rw [findOrder_saveOrder, if_pos hid.symm, hid, h]
  rfl

theorem replaceFirst_idem {α : Type} (p : α → Bool) (x : α) (hx : p x = true) :
    ∀ l : List α, replaceFirst p x (replaceFirst p x l) = replaceFirst p x l
  | [] => rfl
  | y :: ys => by
    by_cases hy : p y = true
    · simp [replaceFirst, hy, hx]
    · simp [replaceFirst, hy, replaceFirst_idem p x hx ys]

theorem saveOrder_idem (db : Db) (o : Order) : (db.saveOrder o).saveOrder o = db.saveOrder o := by
  simp only [Db.saveOrder]
  rw [replaceFirst_idem _ o (by simp)]

/-- The order that `updateOrderAdminStatus` saves for an existing order. -/
theorem updateOrderAdminStatus_found (db : Db) (requester : User) (id : ObjectId)
    (body : AdminStatusBody) (order : Order) (hfind : db.findOrder id = some order) :
    ∃ o', updateOrderAdminStatus db requester id body = (db.saveOrder o', .ok 200 o') ∧
      (db.saveOrder o').findOrder id = some o' ∧
      o' = { order with
        paymentConfirmedByAdmin :=
          body.paymentConfirmedByAdmin.getD order.paymentConfirmedByAdmin,
        orderPlacedWithQikink := body.orderPlacedWithQikink.getD order.orderPlacedWithQikink,
        fulfilmentDone := body.fulfilmentDone.getD order.fulfilmentDone } := by
  have hid := findOrder_id hfind
  obtain ⟨pc, op, fd⟩ := body
  refine ⟨_, ?_, ?_, rfl⟩
  · cases pc <;> cases op <;> cases fd <;> simp [updateOrderAdminStatus, hfind]
  · exact findOrder_saveOrder_self db id order _ hfind hid

/-- C16 (admin-tracking frame). For an existing order and a request that carries exactly one of
paymentConfirmedByAdmin, orderPlacedWithQikink and fulfilmentDone, `updateOrderAdminStatus`
leaves the other two tracking flags and isPaid, paidAt, isDelivered and deliveredAt as they
were. -/
theorem admin_status_frame (db : Db) (requester : User) (id : ObjectId)
    (body : AdminStatusBody) (order : Order) (hfind : db.findOrder id = some order)
    (hone : body.exactlyOne = true) :
    ∃ o', (updateOrderAdminStatus db requester id body).2 = .ok 200 o' ∧
      (updateOrderAdminStatus db requester id body).1.findOrder id = some o' ∧
      (body.paymentConfirmedByAdmin.isSome = true →
        o'.orderPlacedWithQikink = order.orderPlacedWithQikink ∧
        o'.fulfilmentDone = order.fulfilmentDone) ∧
      (body.orderPlacedWithQikink.isSome = true →
        o'.paymentConfirmedByAdmin = order.paymentConfirmedByAdmin ∧
        o'.fulfilmentDone = order.fulfilmentDone) ∧
      (body.fulfilmentDone.isSome = true →
        o'.paymentConfirmedByAdmin = order.paymentConfirmedByAdmin ∧
        o'.orderPlacedWithQikink = order.orderPlacedWithQikink) ∧
      o'.isPaid = order.isPaid ∧ o'.paidAt = order.paidAt ∧
      o'.isDelivered = order.isDelivered ∧ o'.deliveredAt = order.deliveredAt := by
  obtain ⟨o', hrun, hfound, ho'⟩ := updateOrderAdminStatus_found db requester id body order hfind
  refine ⟨o', by rw [hrun], by rw [hrun]; exact hfound, ?_, ?_, ?_, ?_⟩
  · intro hpc
    obtain ⟨pc, op, fd⟩ := body
    cases pc <;> cases op <;> cases fd <;> simp_all [AdminStatusBody.exactlyOne]
  · intro hop
    obtain ⟨pc, op, fd⟩ := body
    cases pc <;> cases op <;> cases fd <;> simp_all [AdminStatusBody.exactlyOne]
  · intro hfd
    obtain ⟨pc, op, fd⟩ := body
    cases pc <;> cases op <;> cases fd <;> simp_all [AdminStatusBody.exactlyOne]
  · rw [ho']
    exact ⟨rfl, rfl, rfl, rfl⟩

/-- Witness for C16: `fulfilmentDone = true` is sent for the order of the worked example. -/
theorem admin_status_frame_witness :
    exDbAfter.findOrder 100 = some exOrder ∧ exFulfilled.exactlyOne = true ∧
    ∃ o', (updateOrderAdminStatus exDbAfter exAdmin 100 exFulfilled).2 = .ok 200 o' ∧
      (updateOrderAdminStatus exDbAfter exAdmin 100 exFulfilled).1.findOrder 100 = some o' ∧
      (exFulfilled.paymentConfirmedByAdmin.isSome = true →
        o'.orderPlacedWithQikink = exOrder.orderPlacedWithQikink ∧
        o'.fulfilmentDone = exOrder.fulfilmentDone) ∧
      (exFulfilled.orderPlacedWithQikink.isSome = true →
        o'.paymentConfirmedByAdmin = exOrder.paymentConfirmedByAdmin ∧
        o'.fulfilmentDone = exOrder.fulfilmentDone) ∧
      (exFulfilled.fulfilmentDone.isSome = true →
        o'.paymentConfirmedByAdmin = exOrder.paymentConfirmedByAdmin ∧
        o'.orderPlacedWithQikink = exOrder.orderPlacedWithQikink) ∧
      o'.isPaid = exOrder.isPaid ∧ o'.paidAt = exOrder.paidAt ∧
      o'.isDelivered = exOrder.isDelivered ∧ o'.deliveredAt = exOrder.deliveredAt :=
  ⟨rfl, rfl, admin_status_frame exDbAfter exAdmin 100 exFulfilled exOrder rfl rfl⟩

/-- C17 (admin-tracking partial update). For an existing order, after `updateOrderAdminStatus`
each of the three tracking flags equals the request's value when the request contains it (an
explicit false included) and its previous value when the request omits it; for an absent order
the call fails with status 404 and the store is unchanged. -/
theorem admin_status_partial_update (db : Db) (requester : User) (id : ObjectId)
    (body : AdminStatusBody) :
    (∀ order, db.findOrder id = some order →
      ∃ o', (updateOrderAdminStatus db requester id body).2 = .ok 200 o' ∧
        (updateOrderAdminStatus db requester id body).1.findOrder id = some o' ∧
        (∀ v, body.paymentConfirmedByAdmin = some v → o'.paymentConfirmedByAdmin = v) ∧
        (body.paymentConfirmedByAdmin = none →
          o'.paymentConfirmedByAdmin = order.paymentConfirmedByAdmin) ∧
        (∀ v, body.orderPlacedWithQikink = some v → o'.orderPlacedWithQikink = v) ∧
        (body.orderPlacedWithQikink = none →
          o'.orderPlacedWithQikink = order.orderPlacedWithQikink) ∧
        (∀ v, body.fulfilmentDone = some v → o'.fulfilmentDone = v) ∧
        (body.fulfilmentDone = none → o'.fulfilmentDone = order.fulfilmentDone)) ∧
    (db.findOrder id = none →
      updateOrderAdminStatus db requester id body = (db, .error 404 .orderNotFound)) := by
  refine ⟨?_, ?_⟩
  · intro order hfind
    obtain ⟨o', hrun, hfound, ho'⟩ :=
      updateOrderAdminStatus_found db requester id body order hfind
    refine ⟨o', by rw [hrun], by rw [hrun]; exact hfound, ?_, ?_, ?_, ?_, ?_, ?_⟩ <;>
      intros <;> simp_all
  · intro hnone
    simp [updateOrderAdminStatus, hnone]

/-- Witness for C17: an explicit `false` for one flag of an existing order, and a request for
an order that does not exist. -/
theorem admin_status_partial_update_witness :
    (∃ o', (updateOrderAdminStatus exDbAfter exAdmin 100
        { paymentConfirmedByAdmin := some false, orderPlacedWithQikink := none,
          fulfilmentDone := none }).1.findOrder 100 = some o' ∧
      o'.paymentConfirmedByAdmin = false ∧
      o'.orderPlacedWithQikink = exOrder.orderPlacedWithQikink ∧
      o'.fulfilmentDone = exOrder.fulfilmentDone) ∧
    updateOrderAdminStatus exDbAfter exAdmin 101 exFulfilled =
      (exDbAfter, .error 404 .orderNotFound) :=
  have h := admin_status_partial_update exDbAfter exAdmin 100
    { paymentConfirmedByAdmin := some false, orderPlacedWithQikink := none,
      fulfilmentDone := none }
  have h' := admin_status_partial_update exDbAfter exAdmin 101 exFulfilled
  ⟨(h.1 exOrder rfl).elim fun o' ho' =>
      ⟨o', ho'.2.1, ho'.2.2.1 false rfl, ho'.2.2.2.2.2.1 rfl, ho'.2.2.2.2.2.2.2 rfl⟩,
    h'.2 rfl⟩

/-- C18 (mark-paid effect and idempotence). For an existing order `updateOrderToPaid` answers
200 and stores the order with isPaid = true and paidAt set to the current time, and a second
call with the same payload at the same clock value returns the same order and leaves the store
as the first call left it; for an absent order the call fails with status 404. -/
theorem mark_paid_idempotent (db : Db) (requester : User) (id : ObjectId)
    (body : PaymentResult) (now : Nat) :
    (∀ order, db.findOrder id = some order →
      ∃ o', (updateOrderToPaid db requester id body now).2 = .ok 200 o' ∧
        (updateOrderToPaid db requester id body now).1.findOrder id = some o' ∧
        o' = { order with isPaid := true, paidAt := some now } ∧
        updateOrderToPaid (updateOrderToPaid db requester id body now).1 requester id body now =
          ((updateOrderToPaid db requester id body now).1, .ok 200 o')) ∧
    (db.findOrder id = none →
      updateOrderToPaid db requester id body now = (db, .error 404 .orderNotFound)) := by
  refine ⟨?_, ?_⟩
  · intro order hfind
    have hid := findOrder_id hfind
    have hrun : updateOrderToPaid db requester id body now =
        (db.saveOrder { order with isPaid := true, paidAt := some now },
          .ok 200 { order with isPaid := true, paidAt := some now }) := by
      simp [updateOrderToPaid, hfind]
    have hfound := findOrder_saveOrder_self db id order
      { order with isPaid := true, paidAt := some now } hfind hid
    refine ⟨_, by rw [hrun], by rw [hrun]; exact hfound, rfl, ?_⟩
    rw [hrun]
    simp only [updateOrderToPaid, hfound]
    rw [saveOrder_idem]
  · intro hnone
    simp [updateOrderToPaid, hnone]

/-- Witness for C18: the order of the worked example is marked paid at clock value 5, and a
request for an order that does not exist is refused. -/
theorem mark_paid_idempotent_witness :
    (∃ o', (updateOrderToPaid exDbAfter exCustomer 100 exPayment 5).2 = .ok 200 o' ∧
      o' = { exOrder with isPaid := true, paidAt := some 5 } ∧
      updateOrderToPaid (updateOrderToPaid exDbAfter exCustomer 100 exPayment 5).1
        exCustomer 100 exPayment 5 =
        ((updateOrderToPaid exDbAfter exCustomer 100 exPayment 5).1, .ok 200 o')) ∧
    updateOrderToPaid exDbAfter exCustomer 101 exPayment 5 =
      (exDbAfter, .error 404 .orderNotFound) :=
  have h := mark_paid_idempotent exDbAfter exCustomer 100 exPayment 5
  have h' := mark_paid_idempotent exDbAfter exCustomer 101 exPayment 5
  ⟨(h.1 exOrder rfl).elim fun o' ho' => ⟨o', ho'.1, ho'.2.2.1, ho'.2.2.2⟩, h'.2 rfl⟩

/-! ## Flags and timestamps -/

theorem paired_saveOrder (db : Db) (id i : ObjectId) (order o' : Order)
    (hfind : db.findOrder i = some order) (hid : o'._id = order._id)
    (hpair : order.paired → o'.paired)
    (h : ∃ o, db.findOrder id = some o ∧ o.paired) :
    ∃ o, (db.saveOrder o').findOrder id = some o ∧ o.paired := by
  obtain ⟨o, ho, hp⟩ := h
  have hi := findOrder_id hfind
  rw [findOrder_saveOrder]
  by_cases hc : id = o'._id
  · have hidi : id = i := by rw [hc, hid, hi]
    subst hidi
    rw [if_pos hc, hid, hi, hfind]
    rw [hfind] at ho
    obtain rfl := Option.some.inj ho
    exact ⟨o', rfl, hpair hp⟩
  · rw [if_neg hc]
    exact ⟨o, ho, hp⟩

theorem paired_run (db : Db) (op : OrderOp) (id : ObjectId)
    (h : ∃ o, db.findOrder id = some o ∧ o.paired) :
    ∃ o, (op.run db).findOrder id = some o ∧ o.paired := by
  cases op with
  | pay requester i body now =>
    simp only [OrderOp.run, updateOrderToPaid]
    cases hfind : db.findOrder i with
    | none => exact h
    | some order =>
      refine paired_saveOrder db id i order _ hfind rfl ?_ h
      intro hp
      exact ⟨by simp, hp.2⟩
  | deliver requester i now =>
    simp only [OrderOp.run, updateOrderToDelivered]
    cases hfind : db.findOrder i with
    | none => exact h
    | some order =>
      refine paired_saveOrder db id i order _ hfind rfl ?_ h
      intro hp
      exact ⟨hp.1, by simp⟩
  | adminStatus requester i body =>
    cases hfind : db.findOrder i with
    | none =>
      simp only [OrderOp.run, updateOrderAdminStatus, hfind]
      exact h
    | some order =>
      obtain ⟨o', hrun, -, ho'⟩ := updateOrderAdminStatus_found db requester i body order hfind
      simp only [OrderOp.run, hrun]
      refine paired_saveOrder db id i order o' hfind (by rw [ho']) ?_ h
      intro hp
      rw [ho']
      exact hp

theorem runOrderOps_cons (db : Db) (op : OrderOp) (ops : List OrderOp) :
    runOrderOps db (op :: ops) = runOrderOps (op.run db) ops := rfl

theorem paired_runOrderOps (id : ObjectId) (ops : List OrderOp) :
    ∀ db : Db, (∃ o, db.findOrder id = some o ∧ o.paired) →
      ∃ o, (runOrderOps db ops).findOrder id = some o ∧ o.paired := by
  induction ops with
  | nil => intro db h; exact h
  | cons op ops ih =>
    intro db h
    rw [runOrderOps_cons]
    exact ih _ (paired_run db op id h)

/-- C19 (flag/timestamp pairing). Take an order just created by a successful `addOrderItems`
call under an identifier no stored order had. After any sequence of `updateOrderToPaid`,
`updateOrderToDelivered` and `updateOrderAdminStatus` requests, on this or on other orders,
the order is still stored under its identifier, paidAt is present if and only if isPaid is
true, and deliveredAt is present if and only if isDelivered is true. -/
theorem flag_timestamp_pairing (db : Db) (user : ObjectId) (body : PlaceOrderBody)
    (newId : ObjectId) (status : Nat) (order : Order) (ops : List OrderOp)
    (hfresh : db.findOrder newId = none)
    (h : (addOrderItems db user body newId).2 = .ok status order) :
    ∃ o, (runOrderOps (addOrderItems db user body newId).1 ops).findOrder newId = some o ∧
      (o.paidAt.isSome = true ↔ o.isPaid = true) ∧
      (o.deliveredAt.isSome = true ↔ o.isDelivered = true) := by
  obtain ⟨horders, fin, sa, pm, price, hord⟩ :=
    addOrderItems_ok_orders db user body newId status order h
  have hid : order._id = newId := by rw [hord]; rfl
  have hpaired : order.paired := by
    rw [hord]
    simp [Order.paired, newOrder]
  have hfound : (addOrderItems db user body newId).1.findOrder newId = some order := by
    unfold Db.findOrder
    rw [horders]
    apply find?_append_new _ order (by simp [hid])
    have hnone : db.orders.find? (fun o => o._id == newId) = none := hfresh
    rw [List.find?_eq_none] at hnone
    rw [Bool.eq_false_iff]
    intro hany
    obtain ⟨y, hy, hpy⟩ := List.any_eq_true.mp hany
    exact hnone y hy hpy
  exact paired_runOrderOps newId ops _ ⟨order, hfound, hpaired⟩

/-- Witness for C19: the order of the worked example is tracked, paid, delivered and paid
again. -/
theorem flag_timestamp_pairing_witness :
    exDb.findOrder 100 = none ∧
    (addOrderItems exDb 7 exOrderBody 100).2 = .ok 201 exOrder ∧
    ∃ o, (runOrderOps (addOrderItems exDb 7 exOrderBody 100).1 exOrderOps).findOrder 100 =
        some o ∧
      (o.paidAt.isSome = true ↔ o.isPaid = true) ∧
      (o.deliveredAt.isSome = true ↔ o.isDelivered = true) :=
  have hrun : (addOrderItems exDb 7 exOrderBody 100).2 = .ok 201 exOrder := by
    rw [addOrderItems_exDb]
  ⟨rfl, hrun, flag_timestamp_pairing exDb 7 exOrderBody 100 201 exOrder exOrderOps rfl hrun⟩

/-! ## The payment-result payload -/

/-- The store and the answer of `updateOrderToPaid` do not depend on the payment-result
payload of the request: the payload is assigned to a property that `orderSchema` does not
declare, and neither `save()` nor the serialised answer carries it. -/
theorem updateOrderToPaid_payload_irrelevant (db : Db) (requester : User) (id : ObjectId)
    (body₁ body₂ : PaymentResult) (now : Nat) :
    updateOrderToPaid db requester id body₁ now = updateOrderToPaid db requester id body₂ now := by
  simp only [updateOrderToPaid]

/-- C20, evaluated at a failing input. Marking the order of the worked example as paid with a
full payment-result payload stores exactly what marking it paid with an empty payload stores:
the order with isPaid = true and paidAt set, and no trace of the payload. -/
theorem updateOrderToPaid_drops_payload :
    exPayment ≠ exNoPayment ∧
    updateOrderToPaid exDbAfter exCustomer 100 exPayment 5 =
      ({ exDbAfter with orders := [{ exOrder with isPaid := true, paidAt := some 5 }] },
       .ok 200 { exOrder with isPaid := true, paidAt := some 5 }) ∧
    updateOrderToPaid exDbAfter exCustomer 100 exNoPayment 5 =
      ({ exDbAfter with orders := [{ exOrder with isPaid := true, paidAt := some 5 }] },
       .ok 200 { exOrder with isPaid := true, paidAt := some 5 }) := by
  refine ⟨by decide, ?_, ?_⟩ <;> rfl

/-! ## Claims about reading and updating orders and products -/

/-- C21 (order snapshot is immutable after creation). For every existing order, each of
`updateOrderToPaid`, `updateOrderToDelivered` and `updateOrderAdminStatus` stores under the
order's identifier an order with the same user, orderItems, shippingAddress, paymentMethod,
giftWrapped, messageForDelivery, itemsPrice, taxPrice, shippingPrice and totalPrice. -/
theorem order_snapshot_immutable (db : Db) (id : ObjectId) (order : Order)
    (hfind : db.findOrder id = some order) :
    (∀ requester body now, ∃ o',
      (updateOrderToPaid db requester id body now).1.findOrder id = some o' ∧
      o'.placedPart = order.placedPart) ∧
    (∀ requester now, ∃ o',
      (updateOrderToDelivered db requester id now).1.findOrder id = some o' ∧
      o'.placedPart = order.placedPart) ∧
    (∀ requester body, ∃ o',
      (updateOrderAdminStatus db requester id body).1.findOrder id = some o' ∧
      o'.placedPart = order.placedPart) := by
  have hid := findOrder_id hfind
  refine ⟨?_, ?_, ?_⟩
  · intro requester body now
    refine ⟨{ order with isPaid := true, paidAt := some now }, ?_, rfl⟩
    simp only [updateOrderToPaid, hfind]
    exact findOrder_saveOrder_self db id order _ hfind hid
  · intro requester now
    refine ⟨{ order with isDelivered := true, deliveredAt := some now }, ?_, rfl⟩
    simp only [updateOrderToDelivered, hfind]
    exact findOrder_saveOrder_self db id order _ hfind hid
  · intro requester body
    obtain ⟨o', hrun, hfound, ho'⟩ :=
      updateOrderAdminStatus_found db requester id body order hfind
    refine ⟨o', by rw [hrun]; exact hfound, ?_⟩
    rw [ho']
    rfl

/-- Witness for C21: the order of the worked example. -/
theorem order_snapshot_immutable_witness :
    exDbAfter.findOrder 100 = some exOrder ∧
    (∃ o', (updateOrderToPaid exDbAfter exCustomer 100 exPayment 5).1.findOrder 100 = some o' ∧
      o'.placedPart = exOrder.placedPart) ∧
    (∃ o', (updateOrderToDelivered exDbAfter exAdmin 100 9).1.findOrder 100 = some o' ∧
      o'.placedPart = exOrder.placedPart) ∧
    (∃ o', (updateOrderAdminStatus exDbAfter exAdmin 100 exFulfilled).1.findOrder 100 =
        some o' ∧
      o'.placedPart = exOrder.placedPart) :=
  have h := order_snapshot_immutable exDbAfter 100 exOrder rfl
  ⟨rfl, h.1 exCustomer exPayment 5, h.2.1 exAdmin 9, h.2.2 exAdmin exFulfilled⟩

/-- C22 (price zero is an explicit value). For every existing product `updateProduct` answers
200 and stores the updated product under the same identifier; when the request's price is 0
the stored price is 0, and when the request omits the price the stored price is unchanged. -/
theorem update_price_zero (db : Db) (id : ObjectId) (body : UpdateProductBody)
    (product : Product) (hfind : db.findProduct id = some product) :
    ∃ p', (updateProduct db id body).2 = .ok 200 p' ∧
      (updateProduct db id body).1.findProduct id = some p' ∧
      (body.price = some 0 → p'.price = 0) ∧
      (body.price = none → p'.price = product.price) := by
  have hid := findProduct_id hfind
  have hrun : updateProduct db id body = (db.saveProduct
        { product with
          name := orOld body.name product.name
          price := definedOr body.price product.price
          description := orOld body.description product.description
          image := orOld body.image product.image
          brand := orOld body.brand product.brand
          category := orOld body.category product.category
          countInStock := definedOr body.countInStock product.countInStock
          sizes := definedOr body.sizes product.sizes
          colors := definedOr body.colors product.colors
          additionalImages := definedOr body.additionalImages product.additionalImages },
        .ok 200
        { product with
          name := orOld body.name product.name
          price := definedOr body.price product.price
          description := orOld body.description product.description
          image := orOld body.image product.image
          brand := orOld body.brand product.brand
          category := orOld body.category product.category
          countInStock := definedOr body.countInStock product.countInStock
          sizes := definedOr body.sizes product.sizes
          colors := definedOr body.colors product.colors
          additionalImages := definedOr body.additionalImages product.additionalImages }) := by
    simp only [updateProduct, hfind]
  rw [hrun]
  refine ⟨_, rfl, ?_, ?_, ?_⟩
  · rw [findProduct_saveProduct]
    simp [hid, hfind]
  · intro h0
    simp [h0, definedOr]
  · intro hnone
    simp [hnone, definedOr]

/-- Witness for C22: the price of Product A is set to 0. -/
theorem update_price_zero_witness :
    exDb.findProduct 1 = some exProductA ∧
    ∃ p', (updateProduct exDb 1 exPriceZero).2 = .ok 200 p' ∧
      (updateProduct exDb 1 exPriceZero).1.findProduct 1 = some p' ∧
      (exPriceZero.price = some 0 → p'.price = 0) ∧
      (exPriceZero.price = none → p'.price = exProductA.price) :=
  ⟨rfl, update_price_zero exDb 1 exPriceZero exProductA rfl⟩

/-- C23 (order read authorization). For every existing order `getOrderById` answers with the
order exactly when the requester is the order's owner or has the admin flag, and otherwise
fails with status 401 without any order data; for an absent order it fails with status 404.
The store is never changed. -/
theorem order_read_authorization (db : Db) (requester : User) (id : ObjectId) :
    (∀ order, db.findOrder id = some order →
      ((requester._id = order.user ∨ requester.isAdmin = true) →
        getOrderById db requester id = (db, .ok 200 order)) ∧
      (¬ (requester._id = order.user ∨ requester.isAdmin = true) →
        getOrderById db requester id = (db, .error 401 .notAuthorizedToViewOrder)) ∧
      ((∃ status body, (getOrderById db requester id).2 = .ok status body) ↔
        (requester._id = order.user ∨ requester.isAdmin = true))) ∧
    (db.findOrder id = none →
      getOrderById db requester id = (db, .error 404 .orderNotFound)) := by
  refine ⟨?_, ?_⟩
  · intro order hfind
    have hyes : (requester._id = order.user ∨ requester.isAdmin = true) →
        getOrderById db requester id = (db, .ok 200 order) := by
      intro hauth
      simp only [getOrderById, hfind]
      rcases hauth with h | h
      · simp [h]
      · simp [h]
    have hno : ¬ (requester._id = order.user ∨ requester.isAdmin = true) →
        getOrderById db requester id = (db, .error 401 .notAuthorizedToViewOrder) := by
      intro hauth
      have h1 : ¬ order.user = requester._id := fun h => hauth (Or.inl h.symm)
      have h2 : requester.isAdmin = false := by
        cases h : requester.isAdmin
        · rfl
        · exact absurd (Or.inr h) hauth
      simp [getOrderById, hfind, h1, h2]
    refine ⟨hyes, hno, ?_, ?_⟩
    · rintro ⟨status, body, hok⟩
      by_contra hauth
      rw [hno hauth] at hok
      exact Outcome.noConfusion hok
    · intro hauth
      exact ⟨200, order, by rw [hyes hauth]⟩
  · intro hnone
    simp [getOrderById, hnone]

/-- Witness for C23: the order of the worked example is read by its owner, by an
administrator and by another user, and an absent order is asked for. -/
theorem order_read_authorization_witness :
    getOrderById exDbAfter exCustomer 100 = (exDbAfter, .ok 200 exOrder) ∧
    getOrderById exDbAfter exAdmin 100 = (exDbAfter, .ok 200 exOrder) ∧
    getOrderById exDbAfter exStranger 100 =
      (exDbAfter, .error 401 .notAuthorizedToViewOrder) ∧
    getOrderById exDbAfter exStranger 101 = (exDbAfter, .error 404 .orderNotFound) :=
  ⟨((order_read_authorization exDbAfter exCustomer 100).1 exOrder rfl).1 (Or.inl rfl),
    ((order_read_authorization exDbAfter exAdmin 100).1 exOrder rfl).1 (Or.inr rfl),
    ((order_read_authorization exDbAfter exStranger 100).1 exOrder rfl).2.1 (by decide),
    (order_read_authorization exDbAfter exStranger 101).2 rfl⟩

/-! ## Claims about editing the cart -/

/-- C24 (set-item-quantity sets the absolute value). When the user's cart holds a line with the
given item id, the line's product exists and its stock is at least q, `updateCartItemQuantity`
answers 200 and stores the cart in which that line has quantity exactly q, with its product,
color and size as before, and every other line untouched.  It fails with 404 when the cart,
the item or the product is absent and with 400 when q exceeds the stock, and then returns the
store unchanged. -/
theorem set_item_quantity (db : Db) (user itemId : ObjectId) (q : ℚ) :
    (∀ cart i old product, db.findCart user = some cart →
      cart.items.findIdx? (fun item => item._id == itemId) = some i →
      cart.items[i]? = some old → db.findProduct old.product = some product →
      ¬ product.countInStock < q →
      ∃ cart', (updateCartItemQuantity db user itemId q).2 = .ok 200 cart' ∧
        (updateCartItemQuantity db user itemId q).1.findCart user = some cart' ∧
        cart'.items.length = cart.items.length ∧
        cart'.items[i]? = some { old with quantity := q } ∧
        ∀ j : Nat, j ≠ i → cart'.items[j]? = cart.items[j]?) ∧
    (db.findCart user = none →
      updateCartItemQuantity db user itemId q = (db, .error 404 .cartNotFound)) ∧
    (∀ cart, db.findCart user = some cart → (∀ line ∈ cart.items, line._id ≠ itemId) →
      updateCartItemQuantity db user itemId q = (db, .error 404 .cartItemNotFound)) ∧
    (∀ cart i old, db.findCart user = some cart →
      cart.items.findIdx? (fun item => item._id == itemId) = some i →
      cart.items[i]? = some old → db.findProduct old.product = none →
      updateCartItemQuantity db user itemId q = (db, .error 404 .cartItemProductNotFound)) ∧
    (∀ cart i old product, db.findCart user = some cart →
      cart.items.findIdx? (fun item => item._id == itemId) = some i →
      cart.items[i]? = some old → db.findProduct old.product = some product →
      product.countInStock < q →
      updateCartItemQuantity db user itemId q =
        (db, .error 400 (.notEnoughStock product.name product.countInStock))) := by
  refine ⟨?_, ?_, ?_, ?_, ?_⟩
  · intro cart i old product hc hi hold hp hstock
    have hu : cart.user = user := findCart_user hc
    have hrun : updateCartItemQuantity db user itemId q =
        (db.saveCart { cart with items := modifyQuantity (fun _ => q) cart.items i },
          .ok 200 { cart with items := modifyQuantity (fun _ => q) cart.items i }) := by
      simp [updateCartItemQuantity, hc, hi, hold, hp, hstock]
    have hfound : (db.saveCart
        { cart with items := modifyQuantity (fun _ => q) cart.items i }).findCart user =
        some { cart with items := modifyQuantity (fun _ => q) cart.items i } := by
      have := findCart_saveCart db
        { cart with items := modifyQuantity (fun _ => q) cart.items i }
      simpa only [hu] using this
    rw [hrun]
    refine ⟨_, rfl, hfound, ?_, ?_, ?_⟩
    · simp [modifyQuantity]
    · simp [modifyQuantity, hold]
    · intro j hj
      simp [modifyQuantity, List.getElem?_modify_ne _ _ (Ne.symm hj)]
  · intro hc
    simp [updateCartItemQuantity, hc]
  · intro cart hc hno
    have hi : cart.items.findIdx? (fun item => item._id == itemId) = none := by
      rw [List.findIdx?_eq_none_iff]
      intro line hline
      simpa using hno line hline
    simp [updateCartItemQuantity, hc, hi]
  · intro cart i old hc hi hold hp
    simp [updateCartItemQuantity, hc, hi, hold, hp]
  · intro cart i old product hc hi hold hp hstock
    simp [updateCartItemQuantity, hc, hi, hold, hp, hstock]

/-- Witness for C24: the first line of the example cart is set to four units, a fifth of
which the stock of Product A covers, and a user without a cart is refused. -/
theorem set_item_quantity_witness :
    (∃ cart', (updateCartItemQuantity exDb 7 10 4).2 = .ok 200 cart' ∧
      (updateCartItemQuantity exDb 7 10 4).1.findCart 7 = some cart' ∧
      cart'.items.length = exCart.items.length ∧
      cart'.items[0]? =
        some { _id := 10, product := 1, quantity := 4, color := none, size := none } ∧
      ∀ j : Nat, j ≠ 0 → cart'.items[j]? = exCart.items[j]?) ∧
    updateCartItemQuantity exDb 8 10 4 = (exDb, .error 404 .cartNotFound) :=
  have h := set_item_quantity exDb 7 10 4
  have h' := set_item_quantity exDb 8 10 4
  ⟨h.1 exCart 0 { _id := 10, product := 1, quantity := 2, color := none, size := none }
      exProductA rfl rfl rfl rfl (by decide),
    h'.2.1 rfl⟩

theorem filter_id_eq_eraseIdx (itemId : ObjectId) :
    ∀ (items : List CartItem) (i : Nat) (line : CartItem),
      (items.map (fun it => it._id)).Nodup → items[i]? = some line → line._id = itemId →
        items.filter (fun item => item._id != itemId) = items.eraseIdx i
  | [], i, line, _, h, _ => by simp at h
  | x :: xs, 0, line, hnd, h, hid => by
    have hx : x = line := by simpa using h
    subst hx
    have hnotin : ∀ y ∈ xs, y._id ≠ x._id := by
      intro y hy hyx
      rw [List.map_cons, List.nodup_cons] at hnd
      exact hnd.1 (List.mem_map.mpr ⟨y, hy, hyx⟩)
    have hrest : xs.filter (fun item => item._id != itemId) = xs := by
      rw [List.filter_eq_self]
      intro y hy
      simpa [← hid] using hnotin y hy
    simp [List.filter_cons, hid, hrest]
  | x :: xs, i + 1, line, hnd, h, hid => by
    have hxs : xs[i]? = some line := by simpa using h
    have hnd' : x._id ∉ xs.map (fun it => it._id) ∧ (xs.map (fun it => it._id)).Nodup := by
      rw [List.map_cons, List.nodup_cons] at hnd
      exact hnd
    have hmem : line ∈ xs := by
      obtain ⟨hlt, hget⟩ := List.getElem?_eq_some_iff.mp hxs
      exact hget ▸ List.getElem_mem hlt
    have hx : x._id ≠ itemId := by
      intro hx
      exact hnd'.1 (List.mem_map.mpr ⟨line, hmem, hid.trans hx.symm⟩)
    have ih := filter_id_eq_eraseIdx itemId xs i line hnd'.2 hxs hid
    simp [List.filter_cons, hx, ih]

/-- C25 (remove-item). For a cart whose lines have distinct item ids, `removeCartItem` with the
id of a line of the cart answers 200 and stores the cart with exactly that line removed and
all other lines in their original order; with an id that no line has it fails with status 404
and returns the store unchanged. -/
theorem remove_item (db : Db) (user itemId : ObjectId) (cart : Cart)
    (hc : db.findCart user = some cart)
    (hdistinct : (cart.items.map (fun it => it._id)).Nodup) :
    (∀ (i : Nat) (line : CartItem), cart.items[i]? = some line → line._id = itemId →
      ∃ cart', (removeCartItem db user itemId).2 = .ok 200 cart' ∧
        (removeCartItem db user itemId).1.findCart user = some cart' ∧
        cart'.items = cart.items.eraseIdx i) ∧
    ((∀ line ∈ cart.items, line._id ≠ itemId) →
      removeCartItem db user itemId = (db, .error 404 .cartItemNotFound)) := by
  have hu : cart.user = user := findCart_user hc
  refine ⟨?_, ?_⟩
  · intro i line hline hid
    have hfilter := filter_id_eq_eraseIdx itemId cart.items i line hdistinct hline hid
    have hlt : i < cart.items.length := by
      by_contra hge
      rw [List.getElem?_eq_none (Nat.le_of_not_lt hge)] at hline
      exact Option.noConfusion hline
    have hlen : (cart.items.eraseIdx i).length ≠ cart.items.length := by
      rw [List.length_eraseIdx, if_pos hlt]
      omega
    have hrun : removeCartItem db user itemId =
        (db.saveCart { cart with items := cart.items.eraseIdx i },
          .ok 200 { cart with items := cart.items.eraseIdx i }) := by
      simp only [removeCartItem, hc, hfilter, if_neg hlen]
    have hfound : (db.saveCart { cart with items := cart.items.eraseIdx i }).findCart user =
        some { cart with items := cart.items.eraseIdx i } := by
      have := findCart_saveCart db { cart with items := cart.items.eraseIdx i }
      simpa only [hu] using this
    rw [hrun]
    exact ⟨_, rfl, hfound, rfl⟩
  · intro hno
    have hfilter : cart.items.filter (fun item => item._id != itemId) = cart.items := by
      rw [List.filter_eq_self]
      intro line hline
      simpa using hno line hline
    simp [removeCartItem, hc, hfilter]

/-- Witness for C25: the second line of the example cart is removed. -/
theorem remove_item_witness :
    exDb.findCart 7 = some exCart ∧ (exCart.items.map (fun it => it._id)).Nodup ∧
    (∃ cart', (removeCartItem exDb 7 11).2 = .ok 200 cart' ∧
      (removeCartItem exDb 7 11).1.findCart 7 = some cart' ∧
      cart'.items = exCart.items.eraseIdx 1) ∧
    removeCartItem exDb 7 12 = (exDb, .error 404 .cartItemNotFound) :=
  have hnd : (exCart.items.map (fun it => it._id)).Nodup := by decide
  have h := remove_item exDb 7 11 exCart rfl hnd
  have h' := remove_item exDb 7 12 exCart rfl hnd
  ⟨rfl, hnd,
    h.1 1 { _id := 11, product := 2, quantity := 1, color := none, size := none } rfl rfl,
    h'.2 (by decide)⟩

/-- C28 (add-item checks only the increment against stock). Product A has stock 5 and the
example cart already holds a line with two units of it; adding five more units, which the
stock check lets pass, leaves that line with seven units, more than the stock. -/
theorem add_item_checks_increment_only :
    ∃ (db : Db) (user : ObjectId) (body : AddItemBody) (newId : ObjectId) (product : Product)
      (old : CartItem),
      db.findProduct body.productId.id = some product ∧
      old ∈ db.cartItems user ∧ sameLine body old = true ∧
      body.quantity ≤ product.countInStock ∧
      ∃ cart', (addItemToCart db user body newId).2 = .ok 200 cart' ∧
        (addItemToCart db user body newId).1.findCart user = some cart' ∧
        ∃ line ∈ cart'.items, sameLine body line = true ∧
          line.quantity = old.quantity + body.quantity ∧
          line.quantity > product.countInStock := by
  have hrun : addItemToCart exDb 7 exAddBodyAllStock 99 =
      ({ exDb with carts := [{ user := 7, items :=
            [{ _id := 10, product := 1, quantity := 7, color := none, size := none },
             { _id := 11, product := 2, quantity := 1, color := none, size := none }] }] },
        .ok 200 { user := 7, items :=
            [{ _id := 10, product := 1, quantity := 7, color := none, size := none },
             { _id := 11, product := 2, quantity := 1, color := none, size := none }] }) := by
    norm_num [addItemToCart, exDb, exCart, exAddBodyAllStock, exProductA, exProductB,
      Db.findProduct, Db.findCart, Db.saveCart, replaceFirst, addToItems, sameLine, toStringEq,
      modifyQuantity]
  refine ⟨exDb, 7, exAddBodyAllStock, 99, exProductA,
    { _id := 10, product := 1, quantity := 2, color := none, size := none },
    rfl, by decide, by decide, by decide, ?_⟩
  rw [hrun]
  refine ⟨_, rfl, rfl,
    { _id := 10, product := 1, quantity := 7, color := none, size := none }, by simp,
    by decide, by norm_num [exAddBodyAllStock], by norm_num [exProductA]⟩

/-! ## Claims about the upload filter -/

/-- What `fileFilter` tests: the file is accepted exactly when one of the words jpeg, jpg, png,
gif occurs somewhere in its MIME type and somewhere in its lower-cased extension. -/
theorem fileFilter_ok_iff (file : UploadedFile) :
    fileFilter file = .ok true ↔
      (filetypesTest file.mimetype = true ∧
        filetypesTest (toLowerCase (extname file.originalname)) = true) := by
  unfold fileFilter
  cases h1 : filetypesTest file.mimetype <;>
    cases h2 : filetypesTest (toLowerCase (extname file.originalname)) <;> simp

/-- Files of the four image types are accepted, whatever the case of the extension. -/
theorem fileFilter_accepts_images :
    fileFilter { originalname := "a.jpeg", mimetype := "image/jpeg" } = .ok true ∧
    fileFilter { originalname := "b.JPG", mimetype := "image/jpeg" } = .ok true ∧
    fileFilter { originalname := "c.png", mimetype := "image/png" } = .ok true ∧
    fileFilter { originalname := "d.Gif", mimetype := "image/gif" } = .ok true ∧
    fileFilter { originalname := "e.pdf", mimetype := "application/pdf" } =
      .error "Only images (JPEG, JPG, PNG, GIF) are allowed!" :=
  ⟨rfl, rfl, rfl, rfl, rfl⟩

/-- C26, evaluated at a failing input. A file named `report.jpgx` sent with MIME type
`text/x-jpg` has extension `.jpgx`, which is none of `.jpeg`, `.jpg`, `.png`, `.gif`, and a
MIME type that is no image type, and `fileFilter` accepts it. -/
theorem fileFilter_accepts_non_image :
    extname exNotAnImage.originalname = ".jpgx" ∧
    toLowerCase (extname exNotAnImage.originalname) ∉ [".jpeg", ".jpg", ".png", ".gif"] ∧
    exNotAnImage.mimetype ∉ ["image/jpeg", "image/jpg", "image/png", "image/gif"] ∧
    fileFilter exNotAnImage = .ok true :=
  ⟨rfl, by decide, by decide, rfl⟩

/-! ## Claims about the client pages -/

theorem isOk_ok {α : Type} (status : Nat) (body : α) :
    (Outcome.ok status body).isOk = true := rfl

/-- What `handleSaveAdminOrderStatus` does to the two flags when the page holds the stored
orders: the function completes, and a flag ends up true when its checkbox is checked or the
flag was true before; the two follow-up routes can set a flag but not clear it. -/
theorem handleSaveAdminOrderStatus_flags (db : Db) (admin : User) (id : ObjectId)
    (boxes : AdminCheckboxes) (nowPay nowDeliver : Nat) (order : Order)
    (hfind : db.findOrder id = some order) :
    (handleSaveAdminOrderStatus db admin db.orders id boxes nowPay nowDeliver).2 = true ∧
    ∃ o', (handleSaveAdminOrderStatus db admin db.orders id boxes nowPay
        nowDeliver).1.findOrder id = some o' ∧
      o'.isPaid = (boxes.isPaid || order.isPaid) ∧
      o'.isDelivered = (boxes.isDelivered || order.isDelivered) := by
  have hid := findOrder_id hfind
  obtain ⟨o1, hrun1, hfound1, ho1⟩ := updateOrderAdminStatus_found db admin id
    { paymentConfirmedByAdmin := some boxes.paymentConfirmedByAdmin,
      orderPlacedWithQikink := some boxes.orderPlacedWithQikink,
      fulfilmentDone := some boxes.fulfilmentDone } order hfind
  have hid1 : o1._id = id := by rw [ho1]; exact hid
  have hpaid1 : o1.isPaid = order.isPaid := by rw [ho1]
  have hdel1 : o1.isDelivered = order.isDelivered := by rw [ho1]
  have hcur : db.orders.find? (fun o => o._id == id) = some order := hfind
  -- the store and the order after the optional request to the pay route
  obtain ⟨db2, o2, hstep2, hfound2, hid2, hpaid2, hdel2⟩ :
      ∃ db2 o2,
        (if (boxes.isPaid != order.isPaid) = true then
          ((updateOrderToPaid (db.saveOrder o1) admin id
              { id := none, status := none, update_time := none, email_address := none }
              nowPay).1,
            (updateOrderToPaid (db.saveOrder o1) admin id
              { id := none, status := none, update_time := none, email_address := none }
              nowPay).2.isOk)
        else (db.saveOrder o1, true)) = (db2, true) ∧
        db2.findOrder id = some o2 ∧ o2._id = id ∧
        o2.isPaid = (boxes.isPaid || order.isPaid) ∧ o2.isDelivered = order.isDelivered := by
    by_cases hp : (boxes.isPaid != order.isPaid) = true
    · refine ⟨(db.saveOrder o1).saveOrder { o1 with isPaid := true, paidAt := some nowPay },
        { o1 with isPaid := true, paidAt := some nowPay }, ?_, ?_, hid1, ?_, hdel1⟩
      · rw [if_pos hp]
        simp only [updateOrderToPaid, hfound1, isOk_ok]
      · exact findOrder_saveOrder_self _ id o1 _ hfound1 hid1
      · cases hb : boxes.isPaid <;> cases ho : order.isPaid <;> simp_all
    · refine ⟨db.saveOrder o1, o1, by rw [if_neg hp], hfound1, hid1, ?_, hdel1⟩
      rw [hpaid1]
      cases hb : boxes.isPaid <;> cases ho : order.isPaid <;> simp_all
  simp only [handleSaveAdminOrderStatus, hrun1, isOk_ok, hcur, Bool.not_true,
    Bool.false_eq_true, if_false]
  rw [hstep2]
  simp only [Bool.not_true, Bool.false_eq_true, if_false]
  by_cases hd : (boxes.isDelivered != order.isDelivered) = true
  · rw [if_pos hd]
    simp only [updateOrderToDelivered, hfound2, isOk_ok, true_and]
    refine ⟨{ o2 with isDelivered := true, deliveredAt := some nowDeliver },
      findOrder_saveOrder_self _ id o2 _ hfound2 hid2, hpaid2, ?_⟩
    cases hb : boxes.isDelivered <;> cases ho : order.isDelivered <;> simp_all
  · rw [if_neg hd]
    refine ⟨rfl, o2, hfound2, hpaid2, ?_⟩
    rw [hdel2]
    cases hb : boxes.isDelivered <;> cases ho : order.isDelivered <;> simp_all

/-- C27, evaluated at a failing input. The order of the worked example is stored as paid; the
administrator opens it from the freshly loaded list, unchecks the paid checkbox and saves.
The function completes without a failed request, and the stored order still has isPaid = true,
with paidAt moved to the time of the save. -/
theorem handleSaveAdminOrderStatus_cannot_unset_paid :
    exDbPaid.findOrder 100 = some { exOrder with isPaid := true, paidAt := some 5 } ∧
    exAllUnchecked.isPaid = false ∧
    (handleSaveAdminOrderStatus exDbPaid exAdmin exDbPaid.orders 100 exAllUnchecked 20 21).2 =
      true ∧
    (handleSaveAdminOrderStatus exDbPaid exAdmin exDbPaid.orders 100 exAllUnchecked 20
        21).1.findOrder 100 =
      some { exOrder with isPaid := true, paidAt := some 20 } :=
  ⟨rfl, rfl, rfl, rfl⟩

theorem foldl_add_eq_sum {α : Type} (f : α → ℚ) :
    ∀ (l : List α) (a : ℚ), l.foldl (fun acc x => acc + f x) a = a + (l.map f).sum
  | [], a => by simp
  | x :: xs, a => by
    rw [List.foldl_cons, foldl_add_eq_sum f xs (a + f x)]
    simp [add_assoc]

/-- The items total that `renderCartItems` accumulates over the populated cart is the subtotal
of the cart. -/
theorem renderCartItems_total (db : Db) (items : List CartItem) :
    (populate db items).foldl
      (fun acc item =>
        let productPrice : ℚ :=
          match item.2 with
          | some product => product.price
          | none => 0
        acc + productPrice * item.1.quantity) 0 = subtotal db items := by
  have := foldl_add_eq_sum
    (fun item : CartItem × Option Product =>
      (match item.2 with
        | some product => product.price
        | none => 0) * item.1.quantity) (populate db items) 0
  simp only at this ⊢
  rw [this, zero_add, subtotal, populate, List.map_map]
  rfl

/-- The items price that `handlePaymentDone` accumulates over the populated cart is the
subtotal of the cart: a line it skips, for a missing product or a price of 0, adds nothing to
the subtotal either. -/
theorem handlePaymentDone_total (db : Db) (items : List CartItem) :
    (populate db items).foldl
      (fun acc item =>
        match item.2 with
        | some product => if product.price != 0 then acc + product.price * item.1.quantity else acc
        | none => acc) 0 = subtotal db items := by
  have hfun : (fun (acc : ℚ) (item : CartItem × Option Product) =>
      match item.2 with
      | some product => if product.price != 0 then acc + product.price * item.1.quantity else acc
      | none => acc) =
      (fun acc item =>
        let productPrice : ℚ :=
          match item.2 with
          | some product => product.price
          | none => 0
        acc + productPrice * item.1.quantity) := by
    funext acc item
    obtain ⟨line, product⟩ := item
    cases product with
    | none => simp
    | some product =>
      by_cases hz : product.price = 0
      · simp [hz]
      · simp [hz]
  rw [hfun]
  exact renderCartItems_total db items

/-- C29 (client estimate agrees with the server). Whenever `addOrderItems` succeeds, the
itemsPrice, taxPrice, shippingPrice and totalPrice that `handlePaymentDone` computes from the
answer of `GET /api/cart` on the same store, and the four figures that `renderCartItems`
computes from it, are the four money fields of the created order. -/
theorem client_estimate_agrees (db : Db) (user : ObjectId) (body : PlaceOrderBody)
    (newId : ObjectId) (status : Nat) (order : Order)
    (h : (addOrderItems db user body newId).2 = .ok status order) :
    ∃ cartResponse, getUserCart db user = (db, .ok 200 cartResponse) ∧
      handlePaymentDonePrices cartResponse =
        some (order.itemsPrice, order.taxPrice, order.shippingPrice, order.totalPrice) ∧
      renderCartItemsEstimate cartResponse =
        some (order.itemsPrice, order.taxPrice, order.shippingPrice, order.totalPrice) := by
  have hpair : addOrderItems db user body newId =
      ((addOrderItems db user body newId).1, .ok status order) := by
    rw [← h]
  obtain ⟨sa, pm, cart, db1, fin, price, -, -, hc, hne, -, -, -, -, -⟩ :=
    addOrderItems_ok_inv db user body newId _ status order hpair
  obtain ⟨-, hitems, htax, hship, htotal, -⟩ :=
    addOrderItems_ok_facts db user body newId status order h
  have hcartItems : db.cartItems user = cart.items := by simp [Db.cartItems, hc]
  rw [hcartItems] at hitems
  have hlen : ¬ (populate db cart.items).length = 0 := by
    simpa [populate] using hne
  refine ⟨{ user := cart.user, items := populate db cart.items }, ?_, ?_, ?_⟩
  · simp only [getUserCart, hc]
  · simp only [handlePaymentDonePrices, hlen, if_false, handlePaymentDone_total]
    rw [htotal, hship, htax, hitems]
    rfl
  · simp only [renderCartItemsEstimate, hlen, if_false, renderCartItems_total]
    rw [htotal, hship, htax, hitems]
    rfl

/-- Witness for C29: the worked checkout example. -/
theorem client_estimate_agrees_witness :
    (addOrderItems exDb 7 exOrderBody 100).2 = .ok 201 exOrder ∧
    ∃ cartResponse, getUserCart exDb 7 = (exDb, .ok 200 cartResponse) ∧
      handlePaymentDonePrices cartResponse =
        some (exOrder.itemsPrice, exOrder.taxPrice, exOrder.shippingPrice,
          exOrder.totalPrice) ∧
      renderCartItemsEstimate cartResponse =
        some (exOrder.itemsPrice, exOrder.taxPrice, exOrder.shippingPrice,
          exOrder.totalPrice) :=
  have hrun : (addOrderItems exDb 7 exOrderBody 100).2 = .ok 201 exOrder := by
    rw [addOrderItems_exDb]
  ⟨hrun, client_estimate_agrees exDb 7 exOrderBody 100 201 exOrder hrun⟩

/-! ## Claims about who may mark an order paid -/

/-- C30 (mark-paid ignores who is asking). For every existing order and any two requesters
sending the same payload at the same clock value, `updateOrderToPaid` answers 200 with the
same order, paid at that clock value, and leaves the same store; neither the requester's
identity nor the admin flag is read. -/
theorem mark_paid_ignores_requester (db : Db) (requester₁ requester₂ : User) (id : ObjectId)
    (body : PaymentResult) (now : Nat) (order : Order)
    (hfind : db.findOrder id = some order) :
    updateOrderToPaid db requester₁ id body now = updateOrderToPaid db requester₂ id body now ∧
    (updateOrderToPaid db requester₁ id body now).2 =
      .ok 200 { order with isPaid := true, paidAt := some now } := by
  refine ⟨rfl, ?_⟩
  simp only [updateOrderToPaid, hfind]

/-- Witness for C30: the order of the worked example is marked paid by a user who is neither
its owner nor an administrator, with the same result as for its owner. -/
theorem mark_paid_ignores_requester_witness :
    exDbAfter.findOrder 100 = some exOrder ∧ exOrder.user ≠ exStranger._id ∧
    exStranger.isAdmin = false ∧
    updateOrderToPaid exDbAfter exStranger 100 exPayment 5 =
      updateOrderToPaid exDbAfter exCustomer 100 exPayment 5 ∧
    (updateOrderToPaid exDbAfter exStranger 100 exPayment 5).2 =
      .ok 200 { exOrder with isPaid := true, paidAt := some 5 } :=
  ⟨rfl, by decide, rfl,
    mark_paid_ignores_requester exDbAfter exStranger exCustomer 100 exPayment 5 exOrder rfl⟩

end Velvyna
